import Mathlib

/-!
A shallow embedding of the `ulid-rs` crate (`src/lib.rs`): ULID construction,
the Crockford base32 codec (`marshal` / `unmarshal`), the timestamp accessor,
and the derived byte-wise ordering.  Bytes (`u8`) are modelled as `Nat` with
explicit `% 256` at every operation that can overflow eight bits; `u64` is
modelled as `Nat` with explicit `% 2 ^ 64`.  An entropy source (`Fn() -> u8`)
is modelled as a function from the call index to the returned byte value.
-/

namespace UlidRs

/-- Crockford's base32 alphabet `0123456789ABCDEFGHJKMNPQRSTVWXYZ`, as the
list of its ASCII byte values (the `ENCODING` table of the source). -/
def ENCODING : List Nat :=
  [48, 49, 50, 51, 52, 53, 54, 55, 56, 57,
   65, 66, 67, 68, 69, 70, 71, 72, 74, 75,
   77, 78, 80, 81, 82, 83, 84, 86, 87, 88, 89, 90]

/-- The 256-entry decode table of the source: maps each byte holding the ASCII
code of an alphabet character to its 5-bit value, every other byte to 0xFF. -/
def DECODING : List Nat :=
  [0xFF, 0xFF, 0xFF, 0xFF, 0xFF, 0xFF, 0xFF, 0xFF, 0xFF, 0xFF, 0xFF, 0xFF, 0xFF, 0xFF, 0xFF, 0xFF,
   0xFF, 0xFF, 0xFF, 0xFF, 0xFF, 0xFF, 0xFF, 0xFF, 0xFF, 0xFF, 0xFF, 0xFF, 0xFF, 0xFF, 0xFF, 0xFF,
   0xFF, 0xFF, 0xFF, 0xFF, 0xFF, 0xFF, 0xFF, 0xFF, 0xFF, 0xFF, 0xFF, 0xFF, 0xFF, 0xFF, 0xFF, 0xFF,
   0x00, 0x01, 0x02, 0x03, 0x04, 0x05, 0x06, 0x07,
   0x08, 0x09, 0xFF, 0xFF, 0xFF, 0xFF, 0xFF, 0xFF,
   0xFF, 0x0A, 0x0B, 0x0C, 0x0D, 0x0E, 0x0F, 0x10,
   0x11, 0xFF, 0x12, 0x13, 0xFF, 0x14, 0x15, 0xFF,
   0x16, 0x17, 0x18, 0x19, 0x1A, 0xFF, 0x1B, 0x1C,
   0x1D, 0x1E, 0x1F, 0xFF, 0xFF, 0xFF, 0xFF, 0xFF, 0xFF, 0xFF, 0xFF, 0xFF, 0xFF, 0xFF, 0xFF, 0xFF,
   0xFF, 0xFF, 0xFF, 0xFF, 0xFF, 0xFF, 0xFF, 0xFF, 0xFF, 0xFF, 0xFF, 0xFF, 0xFF, 0xFF, 0xFF, 0xFF,
   0xFF, 0xFF, 0xFF, 0xFF, 0xFF, 0xFF, 0xFF, 0xFF, 0xFF, 0xFF, 0xFF, 0xFF, 0xFF, 0xFF, 0xFF, 0xFF,
   0xFF, 0xFF, 0xFF, 0xFF, 0xFF, 0xFF, 0xFF, 0xFF, 0xFF, 0xFF, 0xFF, 0xFF, 0xFF, 0xFF, 0xFF, 0xFF,
   0xFF, 0xFF, 0xFF, 0xFF, 0xFF, 0xFF, 0xFF, 0xFF, 0xFF, 0xFF, 0xFF, 0xFF, 0xFF, 0xFF, 0xFF, 0xFF,
   0xFF, 0xFF, 0xFF, 0xFF, 0xFF, 0xFF, 0xFF, 0xFF, 0xFF, 0xFF, 0xFF, 0xFF, 0xFF, 0xFF, 0xFF, 0xFF,
   0xFF, 0xFF, 0xFF, 0xFF, 0xFF, 0xFF, 0xFF, 0xFF, 0xFF, 0xFF, 0xFF, 0xFF, 0xFF, 0xFF, 0xFF, 0xFF,
   0xFF, 0xFF, 0xFF, 0xFF, 0xFF, 0xFF, 0xFF, 0xFF, 0xFF, 0xFF, 0xFF, 0xFF, 0xFF, 0xFF, 0xFF, 0xFF,
   0xFF, 0xFF, 0xFF, 0xFF, 0xFF, 0xFF, 0xFF, 0xFF, 0xFF, 0xFF, 0xFF, 0xFF, 0xFF, 0xFF, 0xFF, 0xFF,
   0xFF, 0xFF, 0xFF, 0xFF, 0xFF, 0xFF, 0xFF, 0xFF, 0xFF, 0xFF, 0xFF, 0xFF, 0xFF, 0xFF, 0xFF, 0xFF,
   0xFF, 0xFF, 0xFF, 0xFF, 0xFF, 0xFF, 0xFF, 0xFF]

/-- The two parse errors of the crate (`enum UlidError`). -/
inductive UlidError where
  | invalidLength
  | invalidCharacter
deriving DecidableEq

/-- `pub struct Ulid([u8; 16])`: 16 bytes, byte 0 most significant. -/
structure Ulid where
  bytes : List Nat
deriving DecidableEq

/-- `Ulid::encode_time`: writes the low 48 bits of `timestamp` into bytes
0..5, most significant byte first (each `as u8` cast is a `% 256`). -/
def Ulid.encode_time (u : Ulid) (timestamp : Nat) : Ulid :=
  ⟨(((((u.bytes.set 0 ((timestamp >>> 40) % 256)).set 1
      ((timestamp >>> 32) % 256)).set 2
      ((timestamp >>> 24) % 256)).set 3
      ((timestamp >>> 16) % 256)).set 4
      ((timestamp >>> 8) % 256)).set 5
      (timestamp % 256)⟩

/-- `Ulid::encode_entropy`: ten successive calls of the entropy source fill
bytes 6..15 in call order; `rng k` is the value of the `(k+1)`-st call, and
the `% 256` embeds the `u8` return type of the closure. -/
def Ulid.encode_entropy (u : Ulid) (rng : Nat → Nat) : Ulid :=
  ⟨(((((((((u.bytes.set 6 (rng 0 % 256)).set 7 (rng 1 % 256)).set 8
      (rng 2 % 256)).set 9 (rng 3 % 256)).set 10 (rng 4 % 256)).set 11
      (rng 5 % 256)).set 12 (rng 6 % 256)).set 13 (rng 7 % 256)).set 14
      (rng 8 % 256)).set 15 (rng 9 % 256)⟩

/-- `Ulid::new`: starts from 16 zero bytes, encodes the time, then the
entropy. -/
def Ulid.new (timestamp : Nat) (rng : Nat → Nat) : Ulid :=
  Ulid.encode_entropy (Ulid.encode_time ⟨List.replicate 16 0⟩ timestamp) rng

/-- `Ulid::marshal`: the 26-character base32 text form, as the list of its
ASCII byte values, one entry per line of the source. -/
def Ulid.marshal (u : Ulid) : List Nat :=
  let val := u.bytes
  [ENCODING.getD (((val.getD 0 0) &&& 224) >>> 5) 0,
   ENCODING.getD ((val.getD 0 0) &&& 31) 0,
   ENCODING.getD (((val.getD 1 0) &&& 248) >>> 3) 0,
   ENCODING.getD ((((val.getD 1 0) &&& 7) <<< 2) ||| (((val.getD 2 0) &&& 192) >>> 6)) 0,
   ENCODING.getD (((val.getD 2 0) &&& 62) >>> 1) 0,
   ENCODING.getD ((((val.getD 2 0) &&& 1) <<< 4) ||| (((val.getD 3 0) &&& 240) >>> 4)) 0,
   ENCODING.getD ((((val.getD 3 0) &&& 15) <<< 1) ||| (((val.getD 4 0) &&& 128) >>> 7)) 0,
   ENCODING.getD (((val.getD 4 0) &&& 124) >>> 2) 0,
   ENCODING.getD ((((val.getD 4 0) &&& 3) <<< 3) ||| (((val.getD 5 0) &&& 224) >>> 5)) 0,
   ENCODING.getD ((val.getD 5 0) &&& 31) 0,
   ENCODING.getD (((val.getD 6 0) &&& 248) >>> 3) 0,
   ENCODING.getD ((((val.getD 6 0) &&& 7) <<< 2) ||| (((val.getD 7 0) &&& 192) >>> 6)) 0,
   ENCODING.getD (((val.getD 7 0) &&& 62) >>> 1) 0,
   ENCODING.getD ((((val.getD 7 0) &&& 1) <<< 4) ||| (((val.getD 8 0) &&& 240) >>> 4)) 0,
   ENCODING.getD ((((val.getD 8 0) &&& 15) <<< 1) ||| (((val.getD 9 0) &&& 128) >>> 7)) 0,
   ENCODING.getD (((val.getD 9 0) &&& 124) >>> 2) 0,
   ENCODING.getD ((((val.getD 9 0) &&& 3) <<< 3) ||| (((val.getD 10 0) &&& 224) >>> 5)) 0,
   ENCODING.getD ((val.getD 10 0) &&& 31) 0,
   ENCODING.getD (((val.getD 11 0) &&& 248) >>> 3) 0,
   ENCODING.getD ((((val.getD 11 0) &&& 7) <<< 2) ||| (((val.getD 12 0) &&& 192) >>> 6)) 0,
   ENCODING.getD (((val.getD 12 0) &&& 62) >>> 1) 0,
   ENCODING.getD ((((val.getD 12 0) &&& 1) <<< 4) ||| (((val.getD 13 0) &&& 240) >>> 4)) 0,
   ENCODING.getD ((((val.getD 13 0) &&& 15) <<< 1) ||| (((val.getD 14 0) &&& 128) >>> 7)) 0,
   ENCODING.getD (((val.getD 14 0) &&& 124) >>> 2) 0,
   ENCODING.getD ((((val.getD 14 0) &&& 3) <<< 3) ||| (((val.getD 15 0) &&& 224) >>> 5)) 0,
   ENCODING.getD ((val.getD 15 0) &&& 31) 0]

/-- `Ulid::unmarshal_word`: decode-table lookup with a sentinel check. -/
def Ulid.unmarshal_word (x : Nat) : Except UlidError Nat :=
  if DECODING.getD x 0xFF = 0xFF then
    Except.error UlidError.invalidCharacter
  else
    Except.ok (DECODING.getD x 0xFF)

/-- `Ulid::unmarshal`: length check, then the 26 characters are decoded in
their first-use order (which is left to right) with `?`-style short
circuiting, and the 5-bit words are packed into 16 bytes exactly as in the
source (`<<` on `u8` truncates, hence the `% 256`). -/
def Ulid.unmarshal (s : List Nat) : Except UlidError Ulid :=
  if s.length ≠ 26 then Except.error UlidError.invalidLength
  else
    (Ulid.unmarshal_word (s.getD 0 0)).bind fun w0 =>
    (Ulid.unmarshal_word (s.getD 1 0)).bind fun w1 =>
    (Ulid.unmarshal_word (s.getD 2 0)).bind fun w2 =>
    (Ulid.unmarshal_word (s.getD 3 0)).bind fun w3 =>
    (Ulid.unmarshal_word (s.getD 4 0)).bind fun w4 =>
    (Ulid.unmarshal_word (s.getD 5 0)).bind fun w5 =>
    (Ulid.unmarshal_word (s.getD 6 0)).bind fun w6 =>
    (Ulid.unmarshal_word (s.getD 7 0)).bind fun w7 =>
    (Ulid.unmarshal_word (s.getD 8 0)).bind fun w8 =>
    (Ulid.unmarshal_word (s.getD 9 0)).bind fun w9 =>
    (Ulid.unmarshal_word (s.getD 10 0)).bind fun w10 =>
    (Ulid.unmarshal_word (s.getD 11 0)).bind fun w11 =>
    (Ulid.unmarshal_word (s.getD 12 0)).bind fun w12 =>
    (Ulid.unmarshal_word (s.getD 13 0)).bind fun w13 =>
    (Ulid.unmarshal_word (s.getD 14 0)).bind fun w14 =>
    (Ulid.unmarshal_word (s.getD 15 0)).bind fun w15 =>
    (Ulid.unmarshal_word (s.getD 16 0)).bind fun w16 =>
    (Ulid.unmarshal_word (s.getD 17 0)).bind fun w17 =>
    (Ulid.unmarshal_word (s.getD 18 0)).bind fun w18 =>
    (Ulid.unmarshal_word (s.getD 19 0)).bind fun w19 =>
    (Ulid.unmarshal_word (s.getD 20 0)).bind fun w20 =>
    (Ulid.unmarshal_word (s.getD 21 0)).bind fun w21 =>
    (Ulid.unmarshal_word (s.getD 22 0)).bind fun w22 =>
    (Ulid.unmarshal_word (s.getD 23 0)).bind fun w23 =>
    (Ulid.unmarshal_word (s.getD 24 0)).bind fun w24 =>
    (Ulid.unmarshal_word (s.getD 25 0)).bind fun w25 =>
    Except.ok ⟨[((w0 <<< 5) % 256) ||| w1,
      ((w2 <<< 3) % 256) ||| (w3 >>> 2),
      ((w3 <<< 6) % 256) ||| ((w4 <<< 1) % 256) ||| (w5 >>> 4),
      ((w5 <<< 4) % 256) ||| (w6 >>> 1),
      ((w6 <<< 7) % 256) ||| ((w7 <<< 2) % 256) ||| (w8 >>> 3),
      ((w8 <<< 5) % 256) ||| w9,
      ((w10 <<< 3) % 256) ||| (w11 >>> 2),
      ((w11 <<< 6) % 256) ||| ((w12 <<< 1) % 256) ||| (w13 >>> 4),
      ((w13 <<< 4) % 256) ||| (w14 >>> 1),
      ((w14 <<< 7) % 256) ||| ((w15 <<< 2) % 256) ||| (w16 >>> 3),
      ((w16 <<< 5) % 256) ||| w17,
      ((w18 <<< 3) % 256) ||| (w19 >>> 2),
      ((w19 <<< 6) % 256) ||| ((w20 <<< 1) % 256) ||| (w21 >>> 4),
      ((w21 <<< 4) % 256) ||| (w22 >>> 1),
      ((w22 <<< 7) % 256) ||| ((w23 <<< 2) % 256) ||| (w24 >>> 3),
      ((w24 <<< 5) % 256) ||| w25]⟩

/-- `Ulid::timestamp`: reassembles bytes 0..5 big-endian into a `u64`
(the `<< 8` on `u64` is a `% 2 ^ 64`). -/
def Ulid.timestamp (u : Ulid) : Nat :=
  let ans : Nat := 0
  let ans := ((ans <<< 8) % 2 ^ 64) ||| (u.bytes.getD 0 0)
  let ans := ((ans <<< 8) % 2 ^ 64) ||| (u.bytes.getD 1 0)
  let ans := ((ans <<< 8) % 2 ^ 64) ||| (u.bytes.getD 2 0)
  let ans := ((ans <<< 8) % 2 ^ 64) ||| (u.bytes.getD 3 0)
  let ans := ((ans <<< 8) % 2 ^ 64) ||| (u.bytes.getD 4 0)
  ((ans <<< 8) % 2 ^ 64) ||| (u.bytes.getD 5 0)

/-- The comparison that Rust derives for `Ulid([u8; 16])` and that `<` on
byte strings of equal length uses: lexicographic, element by element. -/
def lexLt : List Nat → List Nat → Bool
  | _, [] => false
  | [], _ :: _ => true
  | a :: as, b :: bs => decide (a < b) || (a == b && lexLt as bs)

/-- The byte values of an ASCII string, to state text-form results
readably. -/
def strBytes (s : String) : List Nat :=
  s.data.map Char.toNat

/-- The `n` base-`b` digits of a number, most significant first (a proof-layer
helper used to reason about lexicographic order of byte and word lists). -/
def digitsBE (b : Nat) : Nat → Nat → List Nat
  | 0, _ => []
  | n + 1, x => (x / b ^ n) :: digitsBE b n (x % b ^ n)

set_option maxRecDepth 16000

/-! ### Monadic plumbing -/

theorem bindOk {α β : Type} (a : α) (f : α → Except UlidError β) :
    (Except.ok a).bind f = f a := rfl

theorem bindErr {α β : Type} (e : UlidError) (f : α → Except UlidError β) :
    (Except.error e : Except UlidError α).bind f = Except.error e := rfl

theorem unmarshal_word_ok (c : Nat) (h : DECODING.getD c 0xFF ≠ 0xFF) :
    Ulid.unmarshal_word c = Except.ok (DECODING.getD c 0xFF) := by
  unfold Ulid.unmarshal_word
  rw [if_neg h]

theorem unmarshal_word_err (c : Nat) (h : DECODING.getD c 0xFF = 0xFF) :
    Ulid.unmarshal_word c = Except.error UlidError.invalidCharacter := by
  unfold Ulid.unmarshal_word
  rw [if_pos h]

/-! ### Facts about the two symbol tables, by exhaustive evaluation -/

theorem dec_lt_32 (c : Nat) (h : DECODING.getD c 0xFF ≠ 0xFF) :
    DECODING.getD c 0xFF < 32 := by
  by_cases hc : c < 256
  · revert h
    exact (by decide :
      ∀ c' < 256, DECODING.getD c' 0xFF ≠ 0xFF → DECODING.getD c' 0xFF < 32) c hc
  · exact absurd (List.getD_eq_default _ _ (by simp [DECODING]; omega)) h

theorem enc_dec (w : Nat) (hw : w < 32) :
    DECODING.getD (ENCODING.getD w 0) 0xFF = w :=
  (by decide : ∀ w' < 32, DECODING.getD (ENCODING.getD w' 0) 0xFF = w') w hw

theorem dec_enc (c : Nat) (hc : c < 256) (h : DECODING.getD c 0xFF ≠ 0xFF) :
    ENCODING.getD (DECODING.getD c 0xFF) 0 = c := by
  revert h
  exact (by decide : ∀ c' < 256, DECODING.getD c' 0xFF ≠ 0xFF →
    ENCODING.getD (DECODING.getD c' 0xFF) 0 = c') c hc

theorem enc_valid (w : Nat) (hw : w < 32) :
    DECODING.getD (ENCODING.getD w 0) 0xFF ≠ 0xFF := by
  rw [enc_dec w hw]; omega

theorem enc_lt_iff (a b : Nat) (ha : a < 32) (hb : b < 32) :
    (ENCODING.getD a 0 < ENCODING.getD b 0 ↔ a < b) :=
  (by decide : ∀ a' < 32, ∀ b' < 32,
    (ENCODING.getD a' 0 < ENCODING.getD b' 0 ↔ a' < b')) a ha b hb

theorem enc_eq_iff (a b : Nat) (ha : a < 32) (hb : b < 32) :
    (ENCODING.getD a 0 = ENCODING.getD b 0 ↔ a = b) :=
  (by decide : ∀ a' < 32, ∀ b' < 32,
    (ENCODING.getD a' 0 = ENCODING.getD b' 0 ↔ a' = b')) a ha b hb

/-! ### Arithmetic readings of the bit-twiddling pieces -/

theorem lor_two_pow (i a b : Nat) (hb : b < 2 ^ i) :
    2 ^ i * a ||| b = 2 ^ i * a + b :=
  (Nat.mul_add_lt_is_or hb a).symm

theorem mask224 (x : Nat) (hx : x < 256) : (x &&& 224) >>> 5 = x / 32 :=
  (by decide : ∀ x' < 256, (x' &&& 224) >>> 5 = x' / 32) x hx

theorem mask31 (x : Nat) (hx : x < 256) : x &&& 31 = x % 32 :=
  (by decide : ∀ x' < 256, x' &&& 31 = x' % 32) x hx

theorem mask248 (x : Nat) (hx : x < 256) : (x &&& 248) >>> 3 = x / 8 :=
  (by decide : ∀ x' < 256, (x' &&& 248) >>> 3 = x' / 8) x hx

theorem mask7shl2 (x : Nat) (hx : x < 256) : (x &&& 7) <<< 2 = 2 ^ 2 * (x % 8) :=
  (by decide : ∀ x' < 256, (x' &&& 7) <<< 2 = 2 ^ 2 * (x' % 8)) x hx

theorem mask192 (x : Nat) (hx : x < 256) : (x &&& 192) >>> 6 = x / 64 :=
  (by decide : ∀ x' < 256, (x' &&& 192) >>> 6 = x' / 64) x hx

theorem mask62 (x : Nat) (hx : x < 256) : (x &&& 62) >>> 1 = x % 64 / 2 :=
  (by decide : ∀ x' < 256, (x' &&& 62) >>> 1 = x' % 64 / 2) x hx

theorem mask1shl4 (x : Nat) (hx : x < 256) : (x &&& 1) <<< 4 = 2 ^ 4 * (x % 2) :=
  (by decide : ∀ x' < 256, (x' &&& 1) <<< 4 = 2 ^ 4 * (x' % 2)) x hx

theorem mask240 (x : Nat) (hx : x < 256) : (x &&& 240) >>> 4 = x / 16 :=
  (by decide : ∀ x' < 256, (x' &&& 240) >>> 4 = x' / 16) x hx

theorem mask15shl1 (x : Nat) (hx : x < 256) : (x &&& 15) <<< 1 = 2 ^ 1 * (x % 16) :=
  (by decide : ∀ x' < 256, (x' &&& 15) <<< 1 = 2 ^ 1 * (x' % 16)) x hx

theorem mask128 (x : Nat) (hx : x < 256) : (x &&& 128) >>> 7 = x / 128 :=
  (by decide : ∀ x' < 256, (x' &&& 128) >>> 7 = x' / 128) x hx

theorem mask124 (x : Nat) (hx : x < 256) : (x &&& 124) >>> 2 = x % 128 / 4 :=
  (by decide : ∀ x' < 256, (x' &&& 124) >>> 2 = x' % 128 / 4) x hx

theorem mask3shl3 (x : Nat) (hx : x < 256) : (x &&& 3) <<< 3 = 2 ^ 3 * (x % 4) :=
  (by decide : ∀ x' < 256, (x' &&& 3) <<< 3 = 2 ^ 3 * (x' % 4)) x hx

/-- Words 3, 11 and 19 of `marshal`. -/
theorem wordA (x y : Nat) (hx : x < 256) (hy : y < 256) :
    ((x &&& 7) <<< 2) ||| ((y &&& 192) >>> 6) = x % 8 * 4 + y / 64 := by
  rw [mask7shl2 x hx, mask192 y hy, lor_two_pow 2 _ _ (by omega)]
  omega

/-- Words 5, 13 and 21 of `marshal`. -/
theorem wordB (x y : Nat) (hx : x < 256) (hy : y < 256) :
    ((x &&& 1) <<< 4) ||| ((y &&& 240) >>> 4) = x % 2 * 16 + y / 16 := by
  rw [mask1shl4 x hx, mask240 y hy, lor_two_pow 4 _ _ (by omega)]
  omega

/-- Words 6, 14 and 22 of `marshal`. -/
theorem wordC (x y : Nat) (hx : x < 256) (hy : y < 256) :
    ((x &&& 15) <<< 1) ||| ((y &&& 128) >>> 7) = x % 16 * 2 + y / 128 := by
  rw [mask15shl1 x hx, mask128 y hy, lor_two_pow 1 _ _ (by omega)]
  omega

/-- Words 8, 16 and 24 of `marshal`. -/
theorem wordD (x y : Nat) (hx : x < 256) (hy : y < 256) :
    ((x &&& 3) <<< 3) ||| ((y &&& 224) >>> 5) = x % 4 * 8 + y / 32 := by
  rw [mask3shl3 x hx, mask224 y hy, lor_two_pow 3 _ _ (by omega)]
  omega

/-- Bytes 0, 5, 10 and 15 of `unmarshal`. -/
theorem valA (a b : Nat) (ha : a < 32) (hb : b < 32) :
    ((a <<< 5) % 256) ||| b = a % 8 * 32 + b := by
  rw [Nat.shiftLeft_eq]
  have h : a * 2 ^ 5 % 256 = 2 ^ 5 * (a % 8) := by omega
  rw [h, lor_two_pow 5 _ _ (by omega)]
  omega

/-- Bytes 1, 6 and 11 of `unmarshal`. -/
theorem valB (a b : Nat) (ha : a < 32) (hb : b < 32) :
    ((a <<< 3) % 256) ||| (b >>> 2) = a * 8 + b / 4 := by
  rw [Nat.shiftLeft_eq, Nat.shiftRight_eq_div_pow]
  have h : a * 2 ^ 3 % 256 = 2 ^ 3 * a := by omega
  rw [h, lor_two_pow 3 _ _ (by omega)]
  omega

/-- Bytes 2, 7 and 12 of `unmarshal`. -/
theorem valC (a b c : Nat) (ha : a < 32) (hb : b < 32) (hc : c < 32) :
    ((a <<< 6) % 256) ||| ((b <<< 1) % 256) ||| (c >>> 4) =
      a % 4 * 64 + b * 2 + c / 16 := by
  rw [Nat.shiftLeft_eq a, Nat.shiftLeft_eq b, Nat.shiftRight_eq_div_pow]
  have h1 : a * 2 ^ 6 % 256 = 2 ^ 6 * (a % 4) := by omega
  have h2 : b * 2 ^ 1 % 256 = b * 2 := by omega
  rw [h1, h2, lor_two_pow 6 _ _ (by omega)]
  have h3 : 2 ^ 6 * (a % 4) + b * 2 = 2 ^ 1 * (2 ^ 5 * (a % 4) + b) := by ring
  rw [h3, lor_two_pow 1 _ _ (by omega)]
  omega

/-- Bytes 3, 8 and 13 of `unmarshal`. -/
theorem valD (a b : Nat) (ha : a < 32) (hb : b < 32) :
    ((a <<< 4) % 256) ||| (b >>> 1) = a % 16 * 16 + b / 2 := by
  rw [Nat.shiftLeft_eq, Nat.shiftRight_eq_div_pow]
  have h : a * 2 ^ 4 % 256 = 2 ^ 4 * (a % 16) := by omega
  rw [h, lor_two_pow 4 _ _ (by omega)]
  omega

/-- Bytes 4, 9 and 14 of `unmarshal`. -/
theorem valE (a b c : Nat) (ha : a < 32) (hb : b < 32) (hc : c < 32) :
    ((a <<< 7) % 256) ||| ((b <<< 2) % 256) ||| (c >>> 3) =
      a % 2 * 128 + b * 4 + c / 8 := by
  rw [Nat.shiftLeft_eq a, Nat.shiftLeft_eq b, Nat.shiftRight_eq_div_pow]
  have h1 : a * 2 ^ 7 % 256 = 2 ^ 7 * (a % 2) := by omega
  have h2 : b * 2 ^ 2 % 256 = b * 4 := by omega
  rw [h1, h2, lor_two_pow 7 _ _ (by omega)]
  have h3 : 2 ^ 7 * (a % 2) + b * 4 = 2 ^ 2 * (2 ^ 5 * (a % 2) + b) := by ring
  rw [h3, lor_two_pow 2 _ _ (by omega)]
  omega

/-- The 26 five-bit words of `marshal`, read arithmetically: the 128 bits of
the value, split big-endian into 5-bit groups (the first group holding only
the top 3 bits of byte 0). -/
theorem marshal_bytes (b0 b1 b2 b3 b4 b5 b6 b7 b8 b9 b10 b11 b12 b13 b14 b15 : Nat)
    (h : b0 < 256 ∧ b1 < 256 ∧ b2 < 256 ∧ b3 < 256 ∧ b4 < 256 ∧ b5 < 256 ∧
      b6 < 256 ∧ b7 < 256 ∧ b8 < 256 ∧ b9 < 256 ∧ b10 < 256 ∧ b11 < 256 ∧
      b12 < 256 ∧ b13 < 256 ∧ b14 < 256 ∧ b15 < 256) :
    Ulid.marshal ⟨[b0, b1, b2, b3, b4, b5, b6, b7, b8, b9, b10, b11, b12, b13, b14, b15]⟩ =
      [ENCODING.getD (b0 / 32) 0,
       ENCODING.getD (b0 % 32) 0,
       ENCODING.getD (b1 / 8) 0,
       ENCODING.getD (b1 % 8 * 4 + b2 / 64) 0,
       ENCODING.getD (b2 % 64 / 2) 0,
       ENCODING.getD (b2 % 2 * 16 + b3 / 16) 0,
       ENCODING.getD (b3 % 16 * 2 + b4 / 128) 0,
       ENCODING.getD (b4 % 128 / 4) 0,
       ENCODING.getD (b4 % 4 * 8 + b5 / 32) 0,
       ENCODING.getD (b5 % 32) 0,
       ENCODING.getD (b6 / 8) 0,
       ENCODING.getD (b6 % 8 * 4 + b7 / 64) 0,
       ENCODING.getD (b7 % 64 / 2) 0,
       ENCODING.getD (b7 % 2 * 16 + b8 / 16) 0,
       ENCODING.getD (b8 % 16 * 2 + b9 / 128) 0,
       ENCODING.getD (b9 % 128 / 4) 0,
       ENCODING.getD (b9 % 4 * 8 + b10 / 32) 0,
       ENCODING.getD (b10 % 32) 0,
       ENCODING.getD (b11 / 8) 0,
       ENCODING.getD (b11 % 8 * 4 + b12 / 64) 0,
       ENCODING.getD (b12 % 64 / 2) 0,
       ENCODING.getD (b12 % 2 * 16 + b13 / 16) 0,
       ENCODING.getD (b13 % 16 * 2 + b14 / 128) 0,
       ENCODING.getD (b14 % 128 / 4) 0,
       ENCODING.getD (b14 % 4 * 8 + b15 / 32) 0,
       ENCODING.getD (b15 % 32) 0] := by
  obtain ⟨h0, h1, h2, h3, h4, h5, h6, h7, h8, h9, h10, h11, h12, h13, h14, h15⟩ := h
  simp only [Ulid.marshal, List.getD_cons_succ, List.getD_cons_zero]
  rw [mask224 b0 h0,
      mask31 b0 h0,
      mask248 b1 h1,
      wordA b1 b2 h1 h2,
      mask62 b2 h2,
      wordB b2 b3 h2 h3,
      wordC b3 b4 h3 h4,
      mask124 b4 h4,
      wordD b4 b5 h4 h5,
      mask31 b5 h5,
      mask248 b6 h6,
      wordA b6 b7 h6 h7,
      mask62 b7 h7,
      wordB b7 b8 h7 h8,
      wordC b8 b9 h8 h9,
      mask124 b9 h9,
      wordD b9 b10 h9 h10,
      mask31 b10 h10,
      mask248 b11 h11,
      wordA b11 b12 h11 h12,
      mask62 b12 h12,
      wordB b12 b13 h12 h13,
      wordC b13 b14 h13 h14,
      mask124 b14 h14,
      wordD b14 b15 h14 h15,
      mask31 b15 h15]

/-- When all 26 characters are in the alphabet, `unmarshal` succeeds and
packs the decoded 5-bit words as shown (dropping the top 2 bits of the first
word). -/
theorem unmarshal_eq_ok (s : List Nat) (hlen : s.length = 26)
    (hall : ∀ i < 26, DECODING.getD (s.getD i 0) 0xFF ≠ 0xFF) :
    Ulid.unmarshal s = Except.ok ⟨[
      DECODING.getD (s.getD 0 0) 0xFF % 8 * 32 + DECODING.getD (s.getD 1 0) 0xFF,
      DECODING.getD (s.getD 2 0) 0xFF * 8 + DECODING.getD (s.getD 3 0) 0xFF / 4,
      DECODING.getD (s.getD 3 0) 0xFF % 4 * 64 + DECODING.getD (s.getD 4 0) 0xFF * 2 + DECODING.getD (s.getD 5 0) 0xFF / 16,
      DECODING.getD (s.getD 5 0) 0xFF % 16 * 16 + DECODING.getD (s.getD 6 0) 0xFF / 2,
      DECODING.getD (s.getD 6 0) 0xFF % 2 * 128 + DECODING.getD (s.getD 7 0) 0xFF * 4 + DECODING.getD (s.getD 8 0) 0xFF / 8,
      DECODING.getD (s.getD 8 0) 0xFF % 8 * 32 + DECODING.getD (s.getD 9 0) 0xFF ,
      DECODING.getD (s.getD 10 0) 0xFF * 8 + DECODING.getD (s.getD 11 0) 0xFF / 4,
      DECODING.getD (s.getD 11 0) 0xFF % 4 * 64 + DECODING.getD (s.getD 12 0) 0xFF * 2 + DECODING.getD (s.getD 13 0) 0xFF / 16,
      DECODING.getD (s.getD 13 0) 0xFF % 16 * 16 + DECODING.getD (s.getD 14 0) 0xFF / 2,
      DECODING.getD (s.getD 14 0) 0xFF % 2 * 128 + DECODING.getD (s.getD 15 0) 0xFF * 4 + DECODING.getD (s.getD 16 0) 0xFF / 8,
      DECODING.getD (s.getD 16 0) 0xFF % 8 * 32 + DECODING.getD (s.getD 17 0) 0xFF ,
      DECODING.getD (s.getD 18 0) 0xFF * 8 + DECODING.getD (s.getD 19 0) 0xFF / 4,
      DECODING.getD (s.getD 19 0) 0xFF % 4 * 64 + DECODING.getD (s.getD 20 0) 0xFF * 2 + DECODING.getD (s.getD 21 0) 0xFF / 16,
      DECODING.getD (s.getD 21 0) 0xFF % 16 * 16 + DECODING.getD (s.getD 22 0) 0xFF / 2,
      DECODING.getD (s.getD 22 0) 0xFF % 2 * 128 + DECODING.getD (s.getD 23 0) 0xFF * 4 + DECODING.getD (s.getD 24 0) 0xFF / 8,
      DECODING.getD (s.getD 24 0) 0xFF % 8 * 32 + DECODING.getD (s.getD 25 0) 0xFF ]⟩ := by
  have hv0 := hall 0 (by omega)
  have hv1 := hall 1 (by omega)
  have hv2 := hall 2 (by omega)
  have hv3 := hall 3 (by omega)
  have hv4 := hall 4 (by omega)
  have hv5 := hall 5 (by omega)
  have hv6 := hall 6 (by omega)
  have hv7 := hall 7 (by omega)
  have hv8 := hall 8 (by omega)
  have hv9 := hall 9 (by omega)
  have hv10 := hall 10 (by omega)
  have hv11 := hall 11 (by omega)
  have hv12 := hall 12 (by omega)
  have hv13 := hall 13 (by omega)
  have hv14 := hall 14 (by omega)
  have hv15 := hall 15 (by omega)
  have hv16 := hall 16 (by omega)
  have hv17 := hall 17 (by omega)
  have hv18 := hall 18 (by omega)
  have hv19 := hall 19 (by omega)
  have hv20 := hall 20 (by omega)
  have hv21 := hall 21 (by omega)
  have hv22 := hall 22 (by omega)
  have hv23 := hall 23 (by omega)
  have hv24 := hall 24 (by omega)
  have hv25 := hall 25 (by omega)
  have hb0 := dec_lt_32 _ hv0
  have hb1 := dec_lt_32 _ hv1
  have hb2 := dec_lt_32 _ hv2
  have hb3 := dec_lt_32 _ hv3
  have hb4 := dec_lt_32 _ hv4
  have hb5 := dec_lt_32 _ hv5
  have hb6 := dec_lt_32 _ hv6
  have hb7 := dec_lt_32 _ hv7
  have hb8 := dec_lt_32 _ hv8
  have hb9 := dec_lt_32 _ hv9
  have hb10 := dec_lt_32 _ hv10
  have hb11 := dec_lt_32 _ hv11
  have hb12 := dec_lt_32 _ hv12
  have hb13 := dec_lt_32 _ hv13
  have hb14 := dec_lt_32 _ hv14
  have hb15 := dec_lt_32 _ hv15
  have hb16 := dec_lt_32 _ hv16
  have hb17 := dec_lt_32 _ hv17
  have hb18 := dec_lt_32 _ hv18
  have hb19 := dec_lt_32 _ hv19
  have hb20 := dec_lt_32 _ hv20
  have hb21 := dec_lt_32 _ hv21
  have hb22 := dec_lt_32 _ hv22
  have hb23 := dec_lt_32 _ hv23
  have hb24 := dec_lt_32 _ hv24
  have hb25 := dec_lt_32 _ hv25
  unfold Ulid.unmarshal
  rw [if_neg (by omega)]
  simp only [unmarshal_word_ok _ hv0, unmarshal_word_ok _ hv1, unmarshal_word_ok _ hv2, unmarshal_word_ok _ hv3, unmarshal_word_ok _ hv4, unmarshal_word_ok _ hv5, unmarshal_word_ok _ hv6, unmarshal_word_ok _ hv7, unmarshal_word_ok _ hv8, unmarshal_word_ok _ hv9, unmarshal_word_ok _ hv10, unmarshal_word_ok _ hv11, unmarshal_word_ok _ hv12, unmarshal_word_ok _ hv13, unmarshal_word_ok _ hv14, unmarshal_word_ok _ hv15, unmarshal_word_ok _ hv16, unmarshal_word_ok _ hv17, unmarshal_word_ok _ hv18, unmarshal_word_ok _ hv19, unmarshal_word_ok _ hv20, unmarshal_word_ok _ hv21, unmarshal_word_ok _ hv22, unmarshal_word_ok _ hv23, unmarshal_word_ok _ hv24, unmarshal_word_ok _ hv25, bindOk]
  rw [valA _ _ hb0 hb1,
      valB _ _ hb2 hb3,
      valC _ _ _ hb3 hb4 hb5,
      valD _ _ hb5 hb6,
      valE _ _ _ hb6 hb7 hb8,
      valA _ _ hb8 hb9,
      valB _ _ hb10 hb11,
      valC _ _ _ hb11 hb12 hb13,
      valD _ _ hb13 hb14,
      valE _ _ _ hb14 hb15 hb16,
      valA _ _ hb16 hb17,
      valB _ _ hb18 hb19,
      valC _ _ _ hb19 hb20 hb21,
      valD _ _ hb21 hb22,
      valE _ _ _ hb22 hb23 hb24,
      valA _ _ hb24 hb25]

/-- A single out-of-alphabet character anywhere in a 26-byte input makes
`unmarshal` fail with `InvalidCharacter`. -/
theorem unmarshal_eq_err (s : List Nat) (hlen : s.length = 26)
    (hbad : ¬ ∀ i < 26, DECODING.getD (s.getD i 0) 0xFF ≠ 0xFF) :
    Ulid.unmarshal s = Except.error UlidError.invalidCharacter := by
  unfold Ulid.unmarshal
  rw [if_neg (by omega)]
  by_cases h0 : DECODING.getD (s.getD 0 0) 0xFF = 0xFF
  · rw [unmarshal_word_err _ h0, bindErr]
  rw [unmarshal_word_ok _ h0, bindOk]
  by_cases h1 : DECODING.getD (s.getD 1 0) 0xFF = 0xFF
  · rw [unmarshal_word_err _ h1, bindErr]
  rw [unmarshal_word_ok _ h1, bindOk]
  by_cases h2 : DECODING.getD (s.getD 2 0) 0xFF = 0xFF
  · rw [unmarshal_word_err _ h2, bindErr]
  rw [unmarshal_word_ok _ h2, bindOk]
  by_cases h3 : DECODING.getD (s.getD 3 0) 0xFF = 0xFF
  · rw [unmarshal_word_err _ h3, bindErr]
  rw [unmarshal_word_ok _ h3, bindOk]
  by_cases h4 : DECODING.getD (s.getD 4 0) 0xFF = 0xFF
  · rw [unmarshal_word_err _ h4, bindErr]
  rw [unmarshal_word_ok _ h4, bindOk]
  by_cases h5 : DECODING.getD (s.getD 5 0) 0xFF = 0xFF
  · rw [unmarshal_word_err _ h5, bindErr]
  rw [unmarshal_word_ok _ h5, bindOk]
  by_cases h6 : DECODING.getD (s.getD 6 0) 0xFF = 0xFF
  · rw [unmarshal_word_err _ h6, bindErr]
  rw [unmarshal_word_ok _ h6, bindOk]
  by_cases h7 : DECODING.getD (s.getD 7 0) 0xFF = 0xFF
  · rw [unmarshal_word_err _ h7, bindErr]
  rw [unmarshal_word_ok _ h7, bindOk]
  by_cases h8 : DECODING.getD (s.getD 8 0) 0xFF = 0xFF
  · rw [unmarshal_word_err _ h8, bindErr]
  rw [unmarshal_word_ok _ h8, bindOk]
  by_cases h9 : DECODING.getD (s.getD 9 0) 0xFF = 0xFF
  · rw [unmarshal_word_err _ h9, bindErr]
  rw [unmarshal_word_ok _ h9, bindOk]
  by_cases h10 : DECODING.getD (s.getD 10 0) 0xFF = 0xFF
  · rw [unmarshal_word_err _ h10, bindErr]
  rw [unmarshal_word_ok _ h10, bindOk]
  by_cases h11 : DECODING.getD (s.getD 11 0) 0xFF = 0xFF
  · rw [unmarshal_word_err _ h11, bindErr]
  rw [unmarshal_word_ok _ h11, bindOk]
  by_cases h12 : DECODING.getD (s.getD 12 0) 0xFF = 0xFF
  · rw [unmarshal_word_err _ h12, bindErr]
  rw [unmarshal_word_ok _ h12, bindOk]
  by_cases h13 : DECODING.getD (s.getD 13 0) 0xFF = 0xFF
  · rw [unmarshal_word_err _ h13, bindErr]
  rw [unmarshal_word_ok _ h13, bindOk]
  by_cases h14 : DECODING.getD (s.getD 14 0) 0xFF = 0xFF
  · rw [unmarshal_word_err _ h14, bindErr]
  rw [unmarshal_word_ok _ h14, bindOk]
  by_cases h15 : DECODING.getD (s.getD 15 0) 0xFF = 0xFF
  · rw [unmarshal_word_err _ h15, bindErr]
  rw [unmarshal_word_ok _ h15, bindOk]
  by_cases h16 : DECODING.getD (s.getD 16 0) 0xFF = 0xFF
  · rw [unmarshal_word_err _ h16, bindErr]
  rw [unmarshal_word_ok _ h16, bindOk]
  by_cases h17 : DECODING.getD (s.getD 17 0) 0xFF = 0xFF
  · rw [unmarshal_word_err _ h17, bindErr]
  rw [unmarshal_word_ok _ h17, bindOk]
  by_cases h18 : DECODING.getD (s.getD 18 0) 0xFF = 0xFF
  · rw [unmarshal_word_err _ h18, bindErr]
  rw [unmarshal_word_ok _ h18, bindOk]
  by_cases h19 : DECODING.getD (s.getD 19 0) 0xFF = 0xFF
  · rw [unmarshal_word_err _ h19, bindErr]
  rw [unmarshal_word_ok _ h19, bindOk]
  by_cases h20 : DECODING.getD (s.getD 20 0) 0xFF = 0xFF
  · rw [unmarshal_word_err _ h20, bindErr]
  rw [unmarshal_word_ok _ h20, bindOk]
  by_cases h21 : DECODING.getD (s.getD 21 0) 0xFF = 0xFF
  · rw [unmarshal_word_err _ h21, bindErr]
  rw [unmarshal_word_ok _ h21, bindOk]
  by_cases h22 : DECODING.getD (s.getD 22 0) 0xFF = 0xFF
  · rw [unmarshal_word_err _ h22, bindErr]
  rw [unmarshal_word_ok _ h22, bindOk]
  by_cases h23 : DECODING.getD (s.getD 23 0) 0xFF = 0xFF
  · rw [unmarshal_word_err _ h23, bindErr]
  rw [unmarshal_word_ok _ h23, bindOk]
  by_cases h24 : DECODING.getD (s.getD 24 0) 0xFF = 0xFF
  · rw [unmarshal_word_err _ h24, bindErr]
  rw [unmarshal_word_ok _ h24, bindOk]
  by_cases h25 : DECODING.getD (s.getD 25 0) 0xFF = 0xFF
  · rw [unmarshal_word_err _ h25, bindErr]
  rw [unmarshal_word_ok _ h25, bindOk]
  exact absurd (fun i hi => by interval_cases i <;> assumption) hbad

/-- `List.set` leaves every other position unchanged. -/
theorem getD_set_ne {α : Type} (l : List α) (i j : Nat) (a d : α) (h : i ≠ j) :
    (l.set i a).getD j d = l.getD j d := by
  simp only [List.getD_eq_getElem?_getD, List.getElem?_set_ne h]

/-- `Ulid::new` fully evaluated: the six big-endian timestamp bytes followed
by the ten entropy bytes in call order. -/
theorem new_eq (t : Nat) (rng : Nat → Nat) :
    Ulid.new t rng = ⟨[(t >>> 40) % 256, (t >>> 32) % 256, (t >>> 24) % 256,
      (t >>> 16) % 256, (t >>> 8) % 256, t % 256, rng 0 % 256, rng 1 % 256,
      rng 2 % 256, rng 3 % 256, rng 4 % 256, rng 5 % 256, rng 6 % 256,
      rng 7 % 256, rng 8 % 256, rng 9 % 256]⟩ := rfl

/-- One step of the `timestamp` accumulator. -/
theorem acc_step (a b : Nat) (ha : a < 2 ^ 56) (hb : b < 256) :
    ((a <<< 8) % 2 ^ 64) ||| b = a * 256 + b := by
  rw [Nat.shiftLeft_eq]
  have h : a * 2 ^ 8 % 2 ^ 64 = 2 ^ 8 * a := by omega
  rw [h, lor_two_pow 8 _ _ (by omega)]
  omega

/-- `timestamp`, read arithmetically: the base-256 value of bytes 0..5. -/
theorem timestamp_eq (u : Ulid)
    (h0 : u.bytes.getD 0 0 < 256) (h1 : u.bytes.getD 1 0 < 256)
    (h2 : u.bytes.getD 2 0 < 256) (h3 : u.bytes.getD 3 0 < 256)
    (h4 : u.bytes.getD 4 0 < 256) (h5 : u.bytes.getD 5 0 < 256) :
    u.timestamp =
      ((((u.bytes.getD 0 0 * 256 + u.bytes.getD 1 0) * 256 + u.bytes.getD 2 0) * 256 +
        u.bytes.getD 3 0) * 256 + u.bytes.getD 4 0) * 256 + u.bytes.getD 5 0 := by
  simp only [Ulid.timestamp]
  rw [acc_step 0 _ (by omega) h0]
  rw [acc_step (0 * 256 + u.bytes.getD 0 0) _ (by omega) h1]
  rw [acc_step ((0 * 256 + u.bytes.getD 0 0) * 256 + u.bytes.getD 1 0) _ (by omega) h2]
  rw [acc_step (((0 * 256 + u.bytes.getD 0 0) * 256 + u.bytes.getD 1 0) * 256 +
    u.bytes.getD 2 0) _ (by omega) h3]
  rw [acc_step ((((0 * 256 + u.bytes.getD 0 0) * 256 + u.bytes.getD 1 0) * 256 +
    u.bytes.getD 2 0) * 256 + u.bytes.getD 3 0) _ (by omega) h4]
  rw [acc_step (((((0 * 256 + u.bytes.getD 0 0) * 256 + u.bytes.getD 1 0) * 256 +
    u.bytes.getD 2 0) * 256 + u.bytes.getD 3 0) * 256 + u.bytes.getD 4 0) _ (by omega) h5]
  omega

/-- The timestamp accessor inverts the constructor up to 48-bit truncation. -/
theorem timestamp_new (t : Nat) (rng : Nat → Nat) :
    (Ulid.new t rng).timestamp = t % 2 ^ 48 := by
  rw [new_eq]
  rw [timestamp_eq _
    (by simp only [List.getD_cons_succ, List.getD_cons_zero]; omega)
    (by simp only [List.getD_cons_succ, List.getD_cons_zero]; omega)
    (by simp only [List.getD_cons_succ, List.getD_cons_zero]; omega)
    (by simp only [List.getD_cons_succ, List.getD_cons_zero]; omega)
    (by simp only [List.getD_cons_succ, List.getD_cons_zero]; omega)
    (by simp only [List.getD_cons_succ, List.getD_cons_zero]; omega)]
  simp only [List.getD_cons_succ, List.getD_cons_zero]
  rw [Nat.shiftRight_eq_div_pow t 40, Nat.shiftRight_eq_div_pow t 32,
    Nat.shiftRight_eq_div_pow t 24, Nat.shiftRight_eq_div_pow t 16,
    Nat.shiftRight_eq_div_pow t 8]
  omega

/-- If two equal-length lists already compare strictly, appending anything
to both keeps the comparison. -/
theorem lexLt_append (as : List Nat) :
    ∀ bs cs ds : List Nat, as.length = bs.length → lexLt as bs = true →
      lexLt (as ++ cs) (bs ++ ds) = true := by
  induction as with
  | nil =>
    intro bs cs ds hlen h
    cases bs with
    | nil => simp [lexLt] at h
    | cons b bs => simp at hlen
  | cons a as ih =>
    intro bs cs ds hlen h
    cases bs with
    | nil => simp at hlen
    | cons b bs =>
      simp only [List.cons_append]
      simp only [lexLt, Bool.or_eq_true, Bool.and_eq_true, decide_eq_true_eq,
        beq_iff_eq] at h ⊢
      rcases h with h | ⟨he, h2⟩
      · exact Or.inl h
      · exact Or.inr ⟨he, ih bs cs ds (by simpa using hlen) h2⟩

/-- Mapping both sides through the (strictly monotone) encode table preserves
the lexicographic comparison of 5-bit word lists. -/
theorem lexLt_map_enc (as : List Nat) :
    ∀ bs : List Nat, (∀ x ∈ as, x < 32) → (∀ x ∈ bs, x < 32) →
      lexLt as bs = true →
      lexLt (as.map fun w => ENCODING.getD w 0)
        (bs.map fun w => ENCODING.getD w 0) = true := by
  induction as with
  | nil =>
    intro bs ha hb h
    cases bs with
    | nil => simp [lexLt] at h
    | cons b bs => simp only [List.map_nil, List.map_cons, lexLt]
  | cons a as ih =>
    intro bs ha hb h
    cases bs with
    | nil => simp [lexLt] at h
    | cons b bs =>
      simp only [List.map_cons]
      simp only [lexLt, Bool.or_eq_true, Bool.and_eq_true, decide_eq_true_eq,
        beq_iff_eq] at h ⊢
      have ha0 : a < 32 := ha a (by simp)
      have hb0 : b < 32 := hb b (by simp)
      rcases h with h | ⟨he, h2⟩
      · exact Or.inl ((enc_lt_iff a b ha0 hb0).mpr h)
      · refine Or.inr ⟨by rw [he], ih bs ?_ ?_ h2⟩
        · exact fun x hx => ha x (by simp [hx])
        · exact fun x hx => hb x (by simp [hx])

/-- Lexicographic comparison of fixed-width big-endian digit lists agrees
with numeric comparison. -/
theorem lexLt_digitsBE (b : Nat) (hb : 0 < b) (n : Nat) :
    ∀ x y, x < y → y < b ^ n → lexLt (digitsBE b n x) (digitsBE b n y) = true := by
  induction n with
  | zero =>
    intro x y hxy hy
    simp only [Nat.pow_zero] at hy
    exact absurd hxy (by omega)
  | succ n ih =>
    intro x y hxy hy
    simp only [digitsBE, lexLt, Bool.or_eq_true, Bool.and_eq_true,
      decide_eq_true_eq, beq_iff_eq]
    by_cases h : x / b ^ n = y / b ^ n
    · refine Or.inr ⟨h, ih (x % b ^ n) (y % b ^ n) ?_ ?_⟩
      · have e1 := Nat.div_add_mod x (b ^ n)
        have e2 := Nat.div_add_mod y (b ^ n)
        rw [h] at e1
        generalize hA : b ^ n * (y / b ^ n) = A at e1 e2
        generalize hr1 : x % b ^ n = r1 at e1 ⊢
        generalize hr2 : y % b ^ n = r2 at e2 ⊢
        omega
      · exact Nat.mod_lt _ (pow_pos hb n)
    · refine Or.inl ?_
      have hle : x / b ^ n ≤ y / b ^ n := Nat.div_le_div_right (Nat.le_of_lt hxy)
      generalize hq1 : x / b ^ n = q1 at h hle ⊢
      generalize hq2 : y / b ^ n = q2 at h hle ⊢
      omega

/-- The six big-endian timestamp bytes are the base-256 digits of a 48-bit
timestamp. -/
theorem time_bytes_eq_digits (t : Nat) (ht : t < 2 ^ 48) :
    [t / 2 ^ 40 % 256, t / 2 ^ 32 % 256, t / 2 ^ 24 % 256, t / 2 ^ 16 % 256,
     t / 2 ^ 8 % 256, t % 256] = digitsBE 256 6 t := by
  simp only [digitsBE, List.cons.injEq, and_true]
  omega

/-- The ten timestamp words of `marshal` are the base-32 digits of a 48-bit
timestamp. -/
theorem time_words_eq_digits (t : Nat) (ht : t < 2 ^ 48) :
    [t / 2 ^ 40 % 256 / 32, t / 2 ^ 40 % 256 % 32, t / 2 ^ 32 % 256 / 8,
     t / 2 ^ 32 % 256 % 8 * 4 + t / 2 ^ 24 % 256 / 64,
     t / 2 ^ 24 % 256 % 64 / 2,
     t / 2 ^ 24 % 256 % 2 * 16 + t / 2 ^ 16 % 256 / 16,
     t / 2 ^ 16 % 256 % 16 * 2 + t / 2 ^ 8 % 256 / 128,
     t / 2 ^ 8 % 256 % 128 / 4,
     t / 2 ^ 8 % 256 % 4 * 8 + t % 256 / 32, t % 256 % 32] =
      digitsBE 32 10 t := by
  simp only [digitsBE, List.cons.injEq, and_true]
  omega

/-- Strictly ordered 48-bit timestamps give strictly ordered big-endian byte
sextets. -/
theorem lexLt_time_bytes (t1 t2 : Nat) (hlt : t1 < t2) (ht2 : t2 < 2 ^ 48) :
    lexLt
      [t1 / 2 ^ 40 % 256, t1 / 2 ^ 32 % 256, t1 / 2 ^ 24 % 256,
       t1 / 2 ^ 16 % 256, t1 / 2 ^ 8 % 256, t1 % 256]
      [t2 / 2 ^ 40 % 256, t2 / 2 ^ 32 % 256, t2 / 2 ^ 24 % 256,
       t2 / 2 ^ 16 % 256, t2 / 2 ^ 8 % 256, t2 % 256] = true := by
  rw [time_bytes_eq_digits t1 (by omega), time_bytes_eq_digits t2 ht2]
  exact lexLt_digitsBE 256 (by omega) 6 t1 t2 hlt (by omega)

/-- Strictly ordered 48-bit timestamps give strictly ordered sequences of the
ten timestamp words of `marshal`. -/
theorem lexLt_time_words (t1 t2 : Nat) (hlt : t1 < t2) (ht2 : t2 < 2 ^ 48) :
    lexLt
      [t1 / 2 ^ 40 % 256 / 32, t1 / 2 ^ 40 % 256 % 32, t1 / 2 ^ 32 % 256 / 8,
       t1 / 2 ^ 32 % 256 % 8 * 4 + t1 / 2 ^ 24 % 256 / 64,
       t1 / 2 ^ 24 % 256 % 64 / 2,
       t1 / 2 ^ 24 % 256 % 2 * 16 + t1 / 2 ^ 16 % 256 / 16,
       t1 / 2 ^ 16 % 256 % 16 * 2 + t1 / 2 ^ 8 % 256 / 128,
       t1 / 2 ^ 8 % 256 % 128 / 4,
       t1 / 2 ^ 8 % 256 % 4 * 8 + t1 % 256 / 32, t1 % 256 % 32]
      [t2 / 2 ^ 40 % 256 / 32, t2 / 2 ^ 40 % 256 % 32, t2 / 2 ^ 32 % 256 / 8,
       t2 / 2 ^ 32 % 256 % 8 * 4 + t2 / 2 ^ 24 % 256 / 64,
       t2 / 2 ^ 24 % 256 % 64 / 2,
       t2 / 2 ^ 24 % 256 % 2 * 16 + t2 / 2 ^ 16 % 256 / 16,
       t2 / 2 ^ 16 % 256 % 16 * 2 + t2 / 2 ^ 8 % 256 / 128,
       t2 / 2 ^ 8 % 256 % 128 / 4,
       t2 / 2 ^ 8 % 256 % 4 * 8 + t2 % 256 / 32, t2 % 256 % 32] = true := by
  rw [time_words_eq_digits t1 (by omega), time_words_eq_digits t2 ht2]
  exact lexLt_digitsBE 32 (by omega) 10 t1 t2 hlt (by omega)

/-- A byte that decodes validly is in table range. -/
theorem char_lt_256 (c : Nat) (h : DECODING.getD c 0xFF ≠ 0xFF) : c < 256 := by
  by_contra hc
  exact absurd (List.getD_eq_default _ _ (by simp [DECODING]; omega)) h

/-- The characters `0`..`7` decode to values below 8. -/
theorem dec_lt_8_of_digit (c : Nat) (h1 : 48 ≤ c) (h2 : c ≤ 55) :
    DECODING.getD c 0xFF < 8 :=
  (by decide : ∀ c' < 56, 48 ≤ c' → DECODING.getD c' 0xFF < 8) c (by omega) h1

/-- A list of length 26 is the list of its 26 elements. -/
theorem list_expand_26 (s : List Nat) (h : s.length = 26) :
    s = [s.getD 0 0, s.getD 1 0, s.getD 2 0, s.getD 3 0, s.getD 4 0, s.getD 5 0, s.getD 6 0, s.getD 7 0, s.getD 8 0, s.getD 9 0, s.getD 10 0, s.getD 11 0, s.getD 12 0, s.getD 13 0, s.getD 14 0, s.getD 15 0, s.getD 16 0, s.getD 17 0, s.getD 18 0, s.getD 19 0, s.getD 20 0, s.getD 21 0, s.getD 22 0, s.getD 23 0, s.getD 24 0, s.getD 25 0] := by
  rcases s with _ | ⟨a0, s⟩
  · simp only [List.length_cons, List.length_nil] at h; omega
  rcases s with _ | ⟨a1, s⟩
  · simp only [List.length_cons, List.length_nil] at h; omega
  rcases s with _ | ⟨a2, s⟩
  · simp only [List.length_cons, List.length_nil] at h; omega
  rcases s with _ | ⟨a3, s⟩
  · simp only [List.length_cons, List.length_nil] at h; omega
  rcases s with _ | ⟨a4, s⟩
  · simp only [List.length_cons, List.length_nil] at h; omega
  rcases s with _ | ⟨a5, s⟩
  · simp only [List.length_cons, List.length_nil] at h; omega
  rcases s with _ | ⟨a6, s⟩
  · simp only [List.length_cons, List.length_nil] at h; omega
  rcases s with _ | ⟨a7, s⟩
  · simp only [List.length_cons, List.length_nil] at h; omega
  rcases s with _ | ⟨a8, s⟩
  · simp only [List.length_cons, List.length_nil] at h; omega
  rcases s with _ | ⟨a9, s⟩
  · simp only [List.length_cons, List.length_nil] at h; omega
  rcases s with _ | ⟨a10, s⟩
  · simp only [List.length_cons, List.length_nil] at h; omega
  rcases s with _ | ⟨a11, s⟩
  · simp only [List.length_cons, List.length_nil] at h; omega
  rcases s with _ | ⟨a12, s⟩
  · simp only [List.length_cons, List.length_nil] at h; omega
  rcases s with _ | ⟨a13, s⟩
  · simp only [List.length_cons, List.length_nil] at h; omega
  rcases s with _ | ⟨a14, s⟩
  · simp only [List.length_cons, List.length_nil] at h; omega
  rcases s with _ | ⟨a15, s⟩
  · simp only [List.length_cons, List.length_nil] at h; omega
  rcases s with _ | ⟨a16, s⟩
  · simp only [List.length_cons, List.length_nil] at h; omega
  rcases s with _ | ⟨a17, s⟩
  · simp only [List.length_cons, List.length_nil] at h; omega
  rcases s with _ | ⟨a18, s⟩
  · simp only [List.length_cons, List.length_nil] at h; omega
  rcases s with _ | ⟨a19, s⟩
  · simp only [List.length_cons, List.length_nil] at h; omega
  rcases s with _ | ⟨a20, s⟩
  · simp only [List.length_cons, List.length_nil] at h; omega
  rcases s with _ | ⟨a21, s⟩
  · simp only [List.length_cons, List.length_nil] at h; omega
  rcases s with _ | ⟨a22, s⟩
  · simp only [List.length_cons, List.length_nil] at h; omega
  rcases s with _ | ⟨a23, s⟩
  · simp only [List.length_cons, List.length_nil] at h; omega
  rcases s with _ | ⟨a24, s⟩
  · simp only [List.length_cons, List.length_nil] at h; omega
  rcases s with _ | ⟨a25, s⟩
  · simp only [List.length_cons, List.length_nil] at h; omega
  rcases s with _ | ⟨a26, s⟩
  · rfl
  · simp only [List.length_cons] at h; omega

/-- The byte list of `Ulid.new`. -/
theorem new_bytes (t : Nat) (rng : Nat → Nat) :
    (Ulid.new t rng).bytes = [(t >>> 40) % 256, (t >>> 32) % 256,
      (t >>> 24) % 256, (t >>> 16) % 256, (t >>> 8) % 256, t % 256,
      rng 0 % 256, rng 1 % 256, rng 2 % 256, rng 3 % 256, rng 4 % 256,
      rng 5 % 256, rng 6 % 256, rng 7 % 256, rng 8 % 256, rng 9 % 256] := rfl

/-- Re-encoding the bytes built from 26 in-range words (first word below 8)
reproduces the words. -/
theorem marshal_unmarshal_words (d0 d1 d2 d3 d4 d5 d6 d7 d8 d9 d10 d11 d12 d13 d14 d15 d16 d17 d18 d19 d20 d21 d22 d23 d24 d25 : Nat)
    (h0 : d0 < 8)
    (h1 : d1 < 32) (h2 : d2 < 32) (h3 : d3 < 32) (h4 : d4 < 32) (h5 : d5 < 32) (h6 : d6 < 32) (h7 : d7 < 32) (h8 : d8 < 32)
    (h9 : d9 < 32) (h10 : d10 < 32) (h11 : d11 < 32) (h12 : d12 < 32) (h13 : d13 < 32) (h14 : d14 < 32) (h15 : d15 < 32) (h16 : d16 < 32) (h17 : d17 < 32)
    (h18 : d18 < 32) (h19 : d19 < 32) (h20 : d20 < 32) (h21 : d21 < 32) (h22 : d22 < 32) (h23 : d23 < 32) (h24 : d24 < 32) (h25 : d25 < 32) :
    Ulid.marshal ⟨[d0 % 8 * 32 + d1,
      d2 * 8 + d3 / 4,
      d3 % 4 * 64 + d4 * 2 + d5 / 16,
      d5 % 16 * 16 + d6 / 2,
      d6 % 2 * 128 + d7 * 4 + d8 / 8,
      d8 % 8 * 32 + d9,
      d10 * 8 + d11 / 4,
      d11 % 4 * 64 + d12 * 2 + d13 / 16,
      d13 % 16 * 16 + d14 / 2,
      d14 % 2 * 128 + d15 * 4 + d16 / 8,
      d16 % 8 * 32 + d17,
      d18 * 8 + d19 / 4,
      d19 % 4 * 64 + d20 * 2 + d21 / 16,
      d21 % 16 * 16 + d22 / 2,
      d22 % 2 * 128 + d23 * 4 + d24 / 8,
      d24 % 8 * 32 + d25]⟩ =
      [ENCODING.getD d0 0, ENCODING.getD d1 0, ENCODING.getD d2 0, ENCODING.getD d3 0, ENCODING.getD d4 0, ENCODING.getD d5 0, ENCODING.getD d6 0, ENCODING.getD d7 0, ENCODING.getD d8 0, ENCODING.getD d9 0, ENCODING.getD d10 0, ENCODING.getD d11 0, ENCODING.getD d12 0, ENCODING.getD d13 0, ENCODING.getD d14 0, ENCODING.getD d15 0, ENCODING.getD d16 0, ENCODING.getD d17 0, ENCODING.getD d18 0, ENCODING.getD d19 0, ENCODING.getD d20 0, ENCODING.getD d21 0, ENCODING.getD d22 0, ENCODING.getD d23 0, ENCODING.getD d24 0, ENCODING.getD d25 0] := by
  rw [marshal_bytes (d0 % 8 * 32 + d1) (d2 * 8 + d3 / 4) (d3 % 4 * 64 + d4 * 2 + d5 / 16) (d5 % 16 * 16 + d6 / 2) (d6 % 2 * 128 + d7 * 4 + d8 / 8) (d8 % 8 * 32 + d9) (d10 * 8 + d11 / 4) (d11 % 4 * 64 + d12 * 2 + d13 / 16) (d13 % 16 * 16 + d14 / 2) (d14 % 2 * 128 + d15 * 4 + d16 / 8) (d16 % 8 * 32 + d17) (d18 * 8 + d19 / 4) (d19 % 4 * 64 + d20 * 2 + d21 / 16) (d21 % 16 * 16 + d22 / 2) (d22 % 2 * 128 + d23 * 4 + d24 / 8) (d24 % 8 * 32 + d25) (by omega)]
  simp only [List.cons.injEq, and_true]
  exact ⟨congrArg (fun w => ENCODING.getD w 0) (by omega), congrArg (fun w => ENCODING.getD w 0) (by omega), congrArg (fun w => ENCODING.getD w 0) (by omega), congrArg (fun w => ENCODING.getD w 0) (by omega), congrArg (fun w => ENCODING.getD w 0) (by omega), congrArg (fun w => ENCODING.getD w 0) (by omega), congrArg (fun w => ENCODING.getD w 0) (by omega), congrArg (fun w => ENCODING.getD w 0) (by omega), congrArg (fun w => ENCODING.getD w 0) (by omega), congrArg (fun w => ENCODING.getD w 0) (by omega), congrArg (fun w => ENCODING.getD w 0) (by omega), congrArg (fun w => ENCODING.getD w 0) (by omega), congrArg (fun w => ENCODING.getD w 0) (by omega), congrArg (fun w => ENCODING.getD w 0) (by omega), congrArg (fun w => ENCODING.getD w 0) (by omega), congrArg (fun w => ENCODING.getD w 0) (by omega), congrArg (fun w => ENCODING.getD w 0) (by omega), congrArg (fun w => ENCODING.getD w 0) (by omega), congrArg (fun w => ENCODING.getD w 0) (by omega), congrArg (fun w => ENCODING.getD w 0) (by omega), congrArg (fun w => ENCODING.getD w 0) (by omega), congrArg (fun w => ENCODING.getD w 0) (by omega), congrArg (fun w => ENCODING.getD w 0) (by omega), congrArg (fun w => ENCODING.getD w 0) (by omega), congrArg (fun w => ENCODING.getD w 0) (by omega), congrArg (fun w => ENCODING.getD w 0) (by omega)⟩

/-- Every word of `marshal` of a constructed identifier is a 5-bit value. -/
theorem marshal_words_lt (t : Nat) (e : Nat → Nat) :
    ∀ x ∈ [t / 2 ^ 40 % 256 / 32,
      t / 2 ^ 40 % 256 % 32,
      t / 2 ^ 32 % 256 / 8,
      t / 2 ^ 32 % 256 % 8 * 4 + t / 2 ^ 24 % 256 / 64,
      t / 2 ^ 24 % 256 % 64 / 2,
      t / 2 ^ 24 % 256 % 2 * 16 + t / 2 ^ 16 % 256 / 16,
      t / 2 ^ 16 % 256 % 16 * 2 + t / 2 ^ 8 % 256 / 128,
      t / 2 ^ 8 % 256 % 128 / 4,
      t / 2 ^ 8 % 256 % 4 * 8 + t % 256 / 32,
      t % 256 % 32,
      e 0 % 256 / 8,
      e 0 % 256 % 8 * 4 + e 1 % 256 / 64,
      e 1 % 256 % 64 / 2,
      e 1 % 256 % 2 * 16 + e 2 % 256 / 16,
      e 2 % 256 % 16 * 2 + e 3 % 256 / 128,
      e 3 % 256 % 128 / 4,
      e 3 % 256 % 4 * 8 + e 4 % 256 / 32,
      e 4 % 256 % 32,
      e 5 % 256 / 8,
      e 5 % 256 % 8 * 4 + e 6 % 256 / 64,
      e 6 % 256 % 64 / 2,
      e 6 % 256 % 2 * 16 + e 7 % 256 / 16,
      e 7 % 256 % 16 * 2 + e 8 % 256 / 128,
      e 8 % 256 % 128 / 4,
      e 8 % 256 % 4 * 8 + e 9 % 256 / 32,
      e 9 % 256 % 32], x < 32 := by
  intro x hx
  fin_cases hx <;> omega

/-- Claim C1: decoding the text produced by encoding any 16-byte value
succeeds and returns the original value: `unmarshal (marshal v) = Ok v`. -/
theorem C1_binary_roundtrip (b0 b1 b2 b3 b4 b5 b6 b7 b8 b9 b10 b11 b12 b13 b14 b15 : Nat)
    (h : b0 < 256 ∧ b1 < 256 ∧ b2 < 256 ∧ b3 < 256 ∧ b4 < 256 ∧ b5 < 256 ∧
      b6 < 256 ∧ b7 < 256 ∧ b8 < 256 ∧ b9 < 256 ∧ b10 < 256 ∧ b11 < 256 ∧
      b12 < 256 ∧ b13 < 256 ∧ b14 < 256 ∧ b15 < 256) :
    Ulid.unmarshal (Ulid.marshal ⟨[b0, b1, b2, b3, b4, b5, b6, b7, b8, b9, b10, b11, b12, b13, b14, b15]⟩) =
      Except.ok ⟨[b0, b1, b2, b3, b4, b5, b6, b7, b8, b9, b10, b11, b12, b13, b14, b15]⟩ := by
  rw [marshal_bytes b0 b1 b2 b3 b4 b5 b6 b7 b8 b9 b10 b11 b12 b13 b14 b15 h]
  rw [unmarshal_eq_ok _ ?hlen ?hall]
  case hlen => rfl
  case hall =>
    intro i hi
    interval_cases i <;>
      (simp only [List.getD_cons_succ, List.getD_cons_zero]; exact enc_valid _ (by omega))
  simp only [List.getD_cons_succ, List.getD_cons_zero]
  rw [enc_dec (b0 / 32) (by omega),
      enc_dec (b0 % 32) (by omega),
      enc_dec (b1 / 8) (by omega),
      enc_dec (b1 % 8 * 4 + b2 / 64) (by omega),
      enc_dec (b2 % 64 / 2) (by omega),
      enc_dec (b2 % 2 * 16 + b3 / 16) (by omega),
      enc_dec (b3 % 16 * 2 + b4 / 128) (by omega),
      enc_dec (b4 % 128 / 4) (by omega),
      enc_dec (b4 % 4 * 8 + b5 / 32) (by omega),
      enc_dec (b5 % 32) (by omega),
      enc_dec (b6 / 8) (by omega),
      enc_dec (b6 % 8 * 4 + b7 / 64) (by omega),
      enc_dec (b7 % 64 / 2) (by omega),
      enc_dec (b7 % 2 * 16 + b8 / 16) (by omega),
      enc_dec (b8 % 16 * 2 + b9 / 128) (by omega),
      enc_dec (b9 % 128 / 4) (by omega),
      enc_dec (b9 % 4 * 8 + b10 / 32) (by omega),
      enc_dec (b10 % 32) (by omega),
      enc_dec (b11 / 8) (by omega),
      enc_dec (b11 % 8 * 4 + b12 / 64) (by omega),
      enc_dec (b12 % 64 / 2) (by omega),
      enc_dec (b12 % 2 * 16 + b13 / 16) (by omega),
      enc_dec (b13 % 16 * 2 + b14 / 128) (by omega),
      enc_dec (b14 % 128 / 4) (by omega),
      enc_dec (b14 % 4 * 8 + b15 / 32) (by omega),
      enc_dec (b15 % 32) (by omega)]
  simp only [Except.ok.injEq, Ulid.mk.injEq, List.cons.injEq, and_true]
  omega

/-- Witness for C1 at a concrete byte vector. -/
theorem C1_binary_roundtrip_witness :
    Ulid.unmarshal (Ulid.marshal ⟨[0, 1, 2, 3, 4, 5, 6, 7, 8, 9, 10, 11, 12, 13, 250, 255]⟩) =
      Except.ok ⟨[0, 1, 2, 3, 4, 5, 6, 7, 8, 9, 10, 11, 12, 13, 250, 255]⟩ :=
  C1_binary_roundtrip 0 1 2 3 4 5 6 7 8 9 10 11 12 13 250 255 (by omega)

/-- Claim C2: `unmarshal` returns `InvalidLength` for any input whose length
is not 26; on 26-byte inputs it returns `InvalidCharacter` exactly when some
byte is outside the alphabet, and succeeds otherwise. -/
theorem C2_validation :
    (∀ s : List Nat, s.length ≠ 26 →
      Ulid.unmarshal s = Except.error UlidError.invalidLength) ∧
    (∀ s : List Nat, s.length = 26 →
      ((Ulid.unmarshal s = Except.error UlidError.invalidCharacter) ↔
        ∃ i, i < 26 ∧ DECODING.getD (s.getD i 0) 0xFF = 0xFF)) ∧
    (∀ s : List Nat, s.length = 26 →
      (∀ i, i < 26 → DECODING.getD (s.getD i 0) 0xFF ≠ 0xFF) →
      ∃ u, Ulid.unmarshal s = Except.ok u) := by
  refine ⟨?_, ?_, ?_⟩
  · intro s h
    unfold Ulid.unmarshal
    rw [if_pos h]
  · intro s hlen
    constructor
    · intro h
      by_contra hno
      push_neg at hno
      rw [unmarshal_eq_ok s hlen hno] at h
      exact Except.noConfusion h
    · rintro ⟨i, hi, hbad⟩
      exact unmarshal_eq_err s hlen (fun hall => (hall i hi) hbad)
  · intro s hlen hall
    exact ⟨_, unmarshal_eq_ok s hlen hall⟩

/-- Witness for C2 on the spec scenarios (25 characters; an `O`; all valid). -/
theorem C2_validation_witness :
    Ulid.unmarshal (strBytes "0001C7STHC0G2O81040G20810") =
      Except.error UlidError.invalidLength ∧
    Ulid.unmarshal (strBytes "0001C7STHC0G2O81040G208104") =
      Except.error UlidError.invalidCharacter ∧
    ∃ u, Ulid.unmarshal (strBytes "0001C7STHC0G2081040G208104") = Except.ok u :=
  ⟨C2_validation.1 _ (by decide),
   (C2_validation.2.1 _ (by decide)).mpr ⟨13, by omega, by decide⟩,
   C2_validation.2.2 _ (by decide) (by decide)⟩

/-- Claim C3: the timestamp accessor recovers exactly the low 48 bits of the
constructor input, and is always below `2 ^ 48`. -/
theorem C3_timestamp_fidelity (t : Nat) (rng : Nat → Nat) :
    (Ulid.new t rng).timestamp = t &&& 0xFFFFFFFFFFFF ∧
    (Ulid.new t rng).timestamp < 2 ^ 48 := by
  have h := timestamp_new t rng
  have hm : t &&& 0xFFFFFFFFFFFF = t % 2 ^ 48 := by
    rw [(by norm_num : (0xFFFFFFFFFFFF : Nat) = 2 ^ 48 - 1),
      Nat.and_pow_two_sub_one_eq_mod]
  exact ⟨by rw [h, hm], by rw [h]; omega⟩

/-- Claim C4: strictly ordered 48-bit timestamps give strictly ordered
identifiers under byte-wise comparison, both in binary and in text form,
whatever the entropy sources are. -/
theorem C4_ordering (t1 t2 : Nat) (e1 e2 : Nat → Nat)
    (hlt : t1 < t2) (ht2 : t2 < 2 ^ 48) :
    lexLt (Ulid.new t1 e1).bytes (Ulid.new t2 e2).bytes = true ∧
    lexLt (Ulid.new t1 e1).marshal (Ulid.new t2 e2).marshal = true := by
  constructor
  · rw [new_bytes t1 e1, new_bytes t2 e2]
    rw [Nat.shiftRight_eq_div_pow t1 40, Nat.shiftRight_eq_div_pow t1 32,
      Nat.shiftRight_eq_div_pow t1 24, Nat.shiftRight_eq_div_pow t1 16,
      Nat.shiftRight_eq_div_pow t1 8, Nat.shiftRight_eq_div_pow t2 40,
      Nat.shiftRight_eq_div_pow t2 32, Nat.shiftRight_eq_div_pow t2 24,
      Nat.shiftRight_eq_div_pow t2 16, Nat.shiftRight_eq_div_pow t2 8]
    exact lexLt_append
      [t1 / 2 ^ 40 % 256, t1 / 2 ^ 32 % 256, t1 / 2 ^ 24 % 256, t1 / 2 ^ 16 % 256, t1 / 2 ^ 8 % 256, t1 % 256]
      [t2 / 2 ^ 40 % 256, t2 / 2 ^ 32 % 256, t2 / 2 ^ 24 % 256, t2 / 2 ^ 16 % 256, t2 / 2 ^ 8 % 256, t2 % 256]
      [e1 0 % 256, e1 1 % 256, e1 2 % 256, e1 3 % 256, e1 4 % 256, e1 5 % 256, e1 6 % 256, e1 7 % 256, e1 8 % 256, e1 9 % 256]
      [e2 0 % 256, e2 1 % 256, e2 2 % 256, e2 3 % 256, e2 4 % 256, e2 5 % 256, e2 6 % 256, e2 7 % 256, e2 8 % 256, e2 9 % 256]
      rfl (lexLt_time_bytes t1 t2 hlt ht2)
  · rw [new_eq t1 e1, new_eq t2 e2]
    rw [marshal_bytes ((t1 >>> 40) % 256) ((t1 >>> 32) % 256) ((t1 >>> 24) % 256) ((t1 >>> 16) % 256) ((t1 >>> 8) % 256) (t1 % 256) (e1 0 % 256) (e1 1 % 256) (e1 2 % 256) (e1 3 % 256) (e1 4 % 256) (e1 5 % 256) (e1 6 % 256) (e1 7 % 256) (e1 8 % 256) (e1 9 % 256) (by omega)]
    rw [marshal_bytes ((t2 >>> 40) % 256) ((t2 >>> 32) % 256) ((t2 >>> 24) % 256) ((t2 >>> 16) % 256) ((t2 >>> 8) % 256) (t2 % 256) (e2 0 % 256) (e2 1 % 256) (e2 2 % 256) (e2 3 % 256) (e2 4 % 256) (e2 5 % 256) (e2 6 % 256) (e2 7 % 256) (e2 8 % 256) (e2 9 % 256) (by omega)]
    rw [Nat.shiftRight_eq_div_pow t1 40, Nat.shiftRight_eq_div_pow t1 32,
      Nat.shiftRight_eq_div_pow t1 24, Nat.shiftRight_eq_div_pow t1 16,
      Nat.shiftRight_eq_div_pow t1 8, Nat.shiftRight_eq_div_pow t2 40,
      Nat.shiftRight_eq_div_pow t2 32, Nat.shiftRight_eq_div_pow t2 24,
      Nat.shiftRight_eq_div_pow t2 16, Nat.shiftRight_eq_div_pow t2 8]
    have m1 : List.map (fun w => ENCODING.getD w 0)
        [t1 / 2 ^ 40 % 256 / 32,
         t1 / 2 ^ 40 % 256 % 32,
         t1 / 2 ^ 32 % 256 / 8,
         t1 / 2 ^ 32 % 256 % 8 * 4 + t1 / 2 ^ 24 % 256 / 64,
         t1 / 2 ^ 24 % 256 % 64 / 2,
         t1 / 2 ^ 24 % 256 % 2 * 16 + t1 / 2 ^ 16 % 256 / 16,
         t1 / 2 ^ 16 % 256 % 16 * 2 + t1 / 2 ^ 8 % 256 / 128,
         t1 / 2 ^ 8 % 256 % 128 / 4,
         t1 / 2 ^ 8 % 256 % 4 * 8 + t1 % 256 / 32,
         t1 % 256 % 32,
         e1 0 % 256 / 8,
         e1 0 % 256 % 8 * 4 + e1 1 % 256 / 64,
         e1 1 % 256 % 64 / 2,
         e1 1 % 256 % 2 * 16 + e1 2 % 256 / 16,
         e1 2 % 256 % 16 * 2 + e1 3 % 256 / 128,
         e1 3 % 256 % 128 / 4,
         e1 3 % 256 % 4 * 8 + e1 4 % 256 / 32,
         e1 4 % 256 % 32,
         e1 5 % 256 / 8,
         e1 5 % 256 % 8 * 4 + e1 6 % 256 / 64,
         e1 6 % 256 % 64 / 2,
         e1 6 % 256 % 2 * 16 + e1 7 % 256 / 16,
         e1 7 % 256 % 16 * 2 + e1 8 % 256 / 128,
         e1 8 % 256 % 128 / 4,
         e1 8 % 256 % 4 * 8 + e1 9 % 256 / 32,
         e1 9 % 256 % 32] =
        [ENCODING.getD (t1 / 2 ^ 40 % 256 / 32) 0,
         ENCODING.getD (t1 / 2 ^ 40 % 256 % 32) 0,
         ENCODING.getD (t1 / 2 ^ 32 % 256 / 8) 0,
         ENCODING.getD (t1 / 2 ^ 32 % 256 % 8 * 4 + t1 / 2 ^ 24 % 256 / 64) 0,
         ENCODING.getD (t1 / 2 ^ 24 % 256 % 64 / 2) 0,
         ENCODING.getD (t1 / 2 ^ 24 % 256 % 2 * 16 + t1 / 2 ^ 16 % 256 / 16) 0,
         ENCODING.getD (t1 / 2 ^ 16 % 256 % 16 * 2 + t1 / 2 ^ 8 % 256 / 128) 0,
         ENCODING.getD (t1 / 2 ^ 8 % 256 % 128 / 4) 0,
         ENCODING.getD (t1 / 2 ^ 8 % 256 % 4 * 8 + t1 % 256 / 32) 0,
         ENCODING.getD (t1 % 256 % 32) 0,
         ENCODING.getD (e1 0 % 256 / 8) 0,
         ENCODING.getD (e1 0 % 256 % 8 * 4 + e1 1 % 256 / 64) 0,
         ENCODING.getD (e1 1 % 256 % 64 / 2) 0,
         ENCODING.getD (e1 1 % 256 % 2 * 16 + e1 2 % 256 / 16) 0,
         ENCODING.getD (e1 2 % 256 % 16 * 2 + e1 3 % 256 / 128) 0,
         ENCODING.getD (e1 3 % 256 % 128 / 4) 0,
         ENCODING.getD (e1 3 % 256 % 4 * 8 + e1 4 % 256 / 32) 0,
         ENCODING.getD (e1 4 % 256 % 32) 0,
         ENCODING.getD (e1 5 % 256 / 8) 0,
         ENCODING.getD (e1 5 % 256 % 8 * 4 + e1 6 % 256 / 64) 0,
         ENCODING.getD (e1 6 % 256 % 64 / 2) 0,
         ENCODING.getD (e1 6 % 256 % 2 * 16 + e1 7 % 256 / 16) 0,
         ENCODING.getD (e1 7 % 256 % 16 * 2 + e1 8 % 256 / 128) 0,
         ENCODING.getD (e1 8 % 256 % 128 / 4) 0,
         ENCODING.getD (e1 8 % 256 % 4 * 8 + e1 9 % 256 / 32) 0,
         ENCODING.getD (e1 9 % 256 % 32) 0] := by
      simp only [List.map_cons, List.map_nil]
    have m2 : List.map (fun w => ENCODING.getD w 0)
        [t2 / 2 ^ 40 % 256 / 32,
         t2 / 2 ^ 40 % 256 % 32,
         t2 / 2 ^ 32 % 256 / 8,
         t2 / 2 ^ 32 % 256 % 8 * 4 + t2 / 2 ^ 24 % 256 / 64,
         t2 / 2 ^ 24 % 256 % 64 / 2,
         t2 / 2 ^ 24 % 256 % 2 * 16 + t2 / 2 ^ 16 % 256 / 16,
         t2 / 2 ^ 16 % 256 % 16 * 2 + t2 / 2 ^ 8 % 256 / 128,
         t2 / 2 ^ 8 % 256 % 128 / 4,
         t2 / 2 ^ 8 % 256 % 4 * 8 + t2 % 256 / 32,
         t2 % 256 % 32,
         e2 0 % 256 / 8,
         e2 0 % 256 % 8 * 4 + e2 1 % 256 / 64,
         e2 1 % 256 % 64 / 2,
         e2 1 % 256 % 2 * 16 + e2 2 % 256 / 16,
         e2 2 % 256 % 16 * 2 + e2 3 % 256 / 128,
         e2 3 % 256 % 128 / 4,
         e2 3 % 256 % 4 * 8 + e2 4 % 256 / 32,
         e2 4 % 256 % 32,
         e2 5 % 256 / 8,
         e2 5 % 256 % 8 * 4 + e2 6 % 256 / 64,
         e2 6 % 256 % 64 / 2,
         e2 6 % 256 % 2 * 16 + e2 7 % 256 / 16,
         e2 7 % 256 % 16 * 2 + e2 8 % 256 / 128,
         e2 8 % 256 % 128 / 4,
         e2 8 % 256 % 4 * 8 + e2 9 % 256 / 32,
         e2 9 % 256 % 32] =
        [ENCODING.getD (t2 / 2 ^ 40 % 256 / 32) 0,
         ENCODING.getD (t2 / 2 ^ 40 % 256 % 32) 0,
         ENCODING.getD (t2 / 2 ^ 32 % 256 / 8) 0,
         ENCODING.getD (t2 / 2 ^ 32 % 256 % 8 * 4 + t2 / 2 ^ 24 % 256 / 64) 0,
         ENCODING.getD (t2 / 2 ^ 24 % 256 % 64 / 2) 0,
         ENCODING.getD (t2 / 2 ^ 24 % 256 % 2 * 16 + t2 / 2 ^ 16 % 256 / 16) 0,
         ENCODING.getD (t2 / 2 ^ 16 % 256 % 16 * 2 + t2 / 2 ^ 8 % 256 / 128) 0,
         ENCODING.getD (t2 / 2 ^ 8 % 256 % 128 / 4) 0,
         ENCODING.getD (t2 / 2 ^ 8 % 256 % 4 * 8 + t2 % 256 / 32) 0,
         ENCODING.getD (t2 % 256 % 32) 0,
         ENCODING.getD (e2 0 % 256 / 8) 0,
         ENCODING.getD (e2 0 % 256 % 8 * 4 + e2 1 % 256 / 64) 0,
         ENCODING.getD (e2 1 % 256 % 64 / 2) 0,
         ENCODING.getD (e2 1 % 256 % 2 * 16 + e2 2 % 256 / 16) 0,
         ENCODING.getD (e2 2 % 256 % 16 * 2 + e2 3 % 256 / 128) 0,
         ENCODING.getD (e2 3 % 256 % 128 / 4) 0,
         ENCODING.getD (e2 3 % 256 % 4 * 8 + e2 4 % 256 / 32) 0,
         ENCODING.getD (e2 4 % 256 % 32) 0,
         ENCODING.getD (e2 5 % 256 / 8) 0,
         ENCODING.getD (e2 5 % 256 % 8 * 4 + e2 6 % 256 / 64) 0,
         ENCODING.getD (e2 6 % 256 % 64 / 2) 0,
         ENCODING.getD (e2 6 % 256 % 2 * 16 + e2 7 % 256 / 16) 0,
         ENCODING.getD (e2 7 % 256 % 16 * 2 + e2 8 % 256 / 128) 0,
         ENCODING.getD (e2 8 % 256 % 128 / 4) 0,
         ENCODING.getD (e2 8 % 256 % 4 * 8 + e2 9 % 256 / 32) 0,
         ENCODING.getD (e2 9 % 256 % 32) 0] := by
      simp only [List.map_cons, List.map_nil]
    rw [← m1, ← m2]
    refine lexLt_map_enc _ _ (marshal_words_lt t1 e1) (marshal_words_lt t2 e2) ?_
    exact lexLt_append
      [t1 / 2 ^ 40 % 256 / 32,
       t1 / 2 ^ 40 % 256 % 32,
       t1 / 2 ^ 32 % 256 / 8,
       t1 / 2 ^ 32 % 256 % 8 * 4 + t1 / 2 ^ 24 % 256 / 64,
       t1 / 2 ^ 24 % 256 % 64 / 2,
       t1 / 2 ^ 24 % 256 % 2 * 16 + t1 / 2 ^ 16 % 256 / 16,
       t1 / 2 ^ 16 % 256 % 16 * 2 + t1 / 2 ^ 8 % 256 / 128,
       t1 / 2 ^ 8 % 256 % 128 / 4,
       t1 / 2 ^ 8 % 256 % 4 * 8 + t1 % 256 / 32,
       t1 % 256 % 32]
      [t2 / 2 ^ 40 % 256 / 32,
       t2 / 2 ^ 40 % 256 % 32,
       t2 / 2 ^ 32 % 256 / 8,
       t2 / 2 ^ 32 % 256 % 8 * 4 + t2 / 2 ^ 24 % 256 / 64,
       t2 / 2 ^ 24 % 256 % 64 / 2,
       t2 / 2 ^ 24 % 256 % 2 * 16 + t2 / 2 ^ 16 % 256 / 16,
       t2 / 2 ^ 16 % 256 % 16 * 2 + t2 / 2 ^ 8 % 256 / 128,
       t2 / 2 ^ 8 % 256 % 128 / 4,
       t2 / 2 ^ 8 % 256 % 4 * 8 + t2 % 256 / 32,
       t2 % 256 % 32]
      [e1 0 % 256 / 8,
       e1 0 % 256 % 8 * 4 + e1 1 % 256 / 64,
       e1 1 % 256 % 64 / 2,
       e1 1 % 256 % 2 * 16 + e1 2 % 256 / 16,
       e1 2 % 256 % 16 * 2 + e1 3 % 256 / 128,
       e1 3 % 256 % 128 / 4,
       e1 3 % 256 % 4 * 8 + e1 4 % 256 / 32,
       e1 4 % 256 % 32,
       e1 5 % 256 / 8,
       e1 5 % 256 % 8 * 4 + e1 6 % 256 / 64,
       e1 6 % 256 % 64 / 2,
       e1 6 % 256 % 2 * 16 + e1 7 % 256 / 16,
       e1 7 % 256 % 16 * 2 + e1 8 % 256 / 128,
       e1 8 % 256 % 128 / 4,
       e1 8 % 256 % 4 * 8 + e1 9 % 256 / 32,
       e1 9 % 256 % 32]
      [e2 0 % 256 / 8,
       e2 0 % 256 % 8 * 4 + e2 1 % 256 / 64,
       e2 1 % 256 % 64 / 2,
       e2 1 % 256 % 2 * 16 + e2 2 % 256 / 16,
       e2 2 % 256 % 16 * 2 + e2 3 % 256 / 128,
       e2 3 % 256 % 128 / 4,
       e2 3 % 256 % 4 * 8 + e2 4 % 256 / 32,
       e2 4 % 256 % 32,
       e2 5 % 256 / 8,
       e2 5 % 256 % 8 * 4 + e2 6 % 256 / 64,
       e2 6 % 256 % 64 / 2,
       e2 6 % 256 % 2 * 16 + e2 7 % 256 / 16,
       e2 7 % 256 % 16 * 2 + e2 8 % 256 / 128,
       e2 8 % 256 % 128 / 4,
       e2 8 % 256 % 4 * 8 + e2 9 % 256 / 32,
       e2 9 % 256 % 32]
      rfl (lexLt_time_words t1 t2 hlt ht2)

/-- Witness for C4 on the spec scenario timestamps. -/
theorem C4_ordering_witness :
    lexLt (Ulid.new 1469918176385 (fun _ => 0)).bytes
      (Ulid.new 1469918176386 (fun _ => 0)).bytes = true ∧
    lexLt (Ulid.new 1469918176385 (fun _ => 0)).marshal
      (Ulid.new 1469918176386 (fun _ => 0)).marshal = true :=
  C4_ordering 1469918176385 1469918176386 (fun _ => 0) (fun _ => 0)
    (by omega) (by omega)


/-- Claim C5: for a 26-character alphabet-conformant string whose first
character is one of `0`..`7`, re-encoding the decoded value reproduces the
input exactly. -/
theorem C5_text_roundtrip (s : List Nat) (hlen : s.length = 26)
    (hall : ∀ i, i < 26 → DECODING.getD (s.getD i 0) 0xFF ≠ 0xFF)
    (hfirst : 48 ≤ s.getD 0 0 ∧ s.getD 0 0 ≤ 55) :
    ∃ u, Ulid.unmarshal s = Except.ok u ∧ Ulid.marshal u = s := by
  have hv0 := hall 0 (by omega)
  have hv1 := hall 1 (by omega)
  have hv2 := hall 2 (by omega)
  have hv3 := hall 3 (by omega)
  have hv4 := hall 4 (by omega)
  have hv5 := hall 5 (by omega)
  have hv6 := hall 6 (by omega)
  have hv7 := hall 7 (by omega)
  have hv8 := hall 8 (by omega)
  have hv9 := hall 9 (by omega)
  have hv10 := hall 10 (by omega)
  have hv11 := hall 11 (by omega)
  have hv12 := hall 12 (by omega)
  have hv13 := hall 13 (by omega)
  have hv14 := hall 14 (by omega)
  have hv15 := hall 15 (by omega)
  have hv16 := hall 16 (by omega)
  have hv17 := hall 17 (by omega)
  have hv18 := hall 18 (by omega)
  have hv19 := hall 19 (by omega)
  have hv20 := hall 20 (by omega)
  have hv21 := hall 21 (by omega)
  have hv22 := hall 22 (by omega)
  have hv23 := hall 23 (by omega)
  have hv24 := hall 24 (by omega)
  have hv25 := hall 25 (by omega)
  have hd0 := dec_lt_8_of_digit (s.getD 0 0) hfirst.1 hfirst.2
  have hd1 := dec_lt_32 _ hv1
  have hd2 := dec_lt_32 _ hv2
  have hd3 := dec_lt_32 _ hv3
  have hd4 := dec_lt_32 _ hv4
  have hd5 := dec_lt_32 _ hv5
  have hd6 := dec_lt_32 _ hv6
  have hd7 := dec_lt_32 _ hv7
  have hd8 := dec_lt_32 _ hv8
  have hd9 := dec_lt_32 _ hv9
  have hd10 := dec_lt_32 _ hv10
  have hd11 := dec_lt_32 _ hv11
  have hd12 := dec_lt_32 _ hv12
  have hd13 := dec_lt_32 _ hv13
  have hd14 := dec_lt_32 _ hv14
  have hd15 := dec_lt_32 _ hv15
  have hd16 := dec_lt_32 _ hv16
  have hd17 := dec_lt_32 _ hv17
  have hd18 := dec_lt_32 _ hv18
  have hd19 := dec_lt_32 _ hv19
  have hd20 := dec_lt_32 _ hv20
  have hd21 := dec_lt_32 _ hv21
  have hd22 := dec_lt_32 _ hv22
  have hd23 := dec_lt_32 _ hv23
  have hd24 := dec_lt_32 _ hv24
  have hd25 := dec_lt_32 _ hv25
  refine ⟨_, unmarshal_eq_ok s hlen hall, ?_⟩
  rw [marshal_unmarshal_words _ _ _ _ _ _ _ _ _ _ _ _ _ _ _ _ _ _ _ _ _ _ _ _ _ _
    hd0 hd1 hd2 hd3 hd4 hd5 hd6 hd7 hd8 hd9 hd10 hd11 hd12
    hd13 hd14 hd15 hd16 hd17 hd18 hd19 hd20 hd21 hd22 hd23 hd24 hd25]
  rw [dec_enc (s.getD 0 0) (char_lt_256 _ hv0) hv0,
      dec_enc (s.getD 1 0) (char_lt_256 _ hv1) hv1,
      dec_enc (s.getD 2 0) (char_lt_256 _ hv2) hv2,
      dec_enc (s.getD 3 0) (char_lt_256 _ hv3) hv3,
      dec_enc (s.getD 4 0) (char_lt_256 _ hv4) hv4,
      dec_enc (s.getD 5 0) (char_lt_256 _ hv5) hv5,
      dec_enc (s.getD 6 0) (char_lt_256 _ hv6) hv6,
      dec_enc (s.getD 7 0) (char_lt_256 _ hv7) hv7,
      dec_enc (s.getD 8 0) (char_lt_256 _ hv8) hv8,
      dec_enc (s.getD 9 0) (char_lt_256 _ hv9) hv9,
      dec_enc (s.getD 10 0) (char_lt_256 _ hv10) hv10,
      dec_enc (s.getD 11 0) (char_lt_256 _ hv11) hv11,
      dec_enc (s.getD 12 0) (char_lt_256 _ hv12) hv12,
      dec_enc (s.getD 13 0) (char_lt_256 _ hv13) hv13,
      dec_enc (s.getD 14 0) (char_lt_256 _ hv14) hv14,
      dec_enc (s.getD 15 0) (char_lt_256 _ hv15) hv15,
      dec_enc (s.getD 16 0) (char_lt_256 _ hv16) hv16,
      dec_enc (s.getD 17 0) (char_lt_256 _ hv17) hv17,
      dec_enc (s.getD 18 0) (char_lt_256 _ hv18) hv18,
      dec_enc (s.getD 19 0) (char_lt_256 _ hv19) hv19,
      dec_enc (s.getD 20 0) (char_lt_256 _ hv20) hv20,
      dec_enc (s.getD 21 0) (char_lt_256 _ hv21) hv21,
      dec_enc (s.getD 22 0) (char_lt_256 _ hv22) hv22,
      dec_enc (s.getD 23 0) (char_lt_256 _ hv23) hv23,
      dec_enc (s.getD 24 0) (char_lt_256 _ hv24) hv24,
      dec_enc (s.getD 25 0) (char_lt_256 _ hv25) hv25]
  exact (list_expand_26 s hlen).symm

/-- Witness for C5 on the first spec vector. -/
theorem C5_text_roundtrip_witness :
    ∃ u, Ulid.unmarshal (strBytes "0001C7STHC0G2081040G208104") = Except.ok u ∧
      Ulid.marshal u = strBytes "0001C7STHC0G2081040G208104" :=
  C5_text_roundtrip _ (by decide) (by decide) (by decide)

/-- Claim C6 counterexample: the code is case-sensitive — lowercasing one
letter of a valid string makes `unmarshal` fail instead of succeeding with
the same value. -/
theorem C6_counterexample :
    Ulid.unmarshal (strBytes "0001c7STHC0G2081040G208104") =
      Except.error UlidError.invalidCharacter ∧
    ∃ u, Ulid.unmarshal (strBytes "0001C7STHC0G2081040G208104") =
      Except.ok u := by
  exact ⟨rfl, ⟨_, rfl⟩⟩

/-- Claim C6 amended: decoding is case-sensitive; a 26-byte input containing
any lowercase ASCII letter is rejected with `InvalidCharacter`. -/
theorem C6_case_sensitive (s : List Nat) (hlen : s.length = 26) (i : Nat)
    (hi : i < 26) (hlow : 97 ≤ s.getD i 0 ∧ s.getD i 0 ≤ 122) :
    Ulid.unmarshal s = Except.error UlidError.invalidCharacter := by
  apply unmarshal_eq_err s hlen
  intro hall
  exact (hall i hi)
    ((by decide : ∀ c < 123, 97 ≤ c → DECODING.getD c 0xFF = 0xFF) _
      (by omega) hlow.1)

/-- Witness for the amended C6 at a concrete lowercased string. -/
theorem C6_case_sensitive_witness :
    Ulid.unmarshal (strBytes "0001c7STHC0G2081040G208104") =
      Except.error UlidError.invalidCharacter :=
  C6_case_sensitive _ (by decide) 4 (by omega) (by decide)

/-- Claim C7: `new` writes the low 48 bits of the timestamp big-endian into
bytes 0..5 and the ten entropy values, in call order, into bytes 6..15. -/
theorem C7_constructor_bytes (t : Nat) (rng : Nat → Nat)
    (hrng : ∀ k, rng k < 256) :
    ((Ulid.new t rng).bytes.getD 0 0 = t % 2 ^ 48 / 2 ^ 40 ∧
     (Ulid.new t rng).bytes.getD 1 0 = t % 2 ^ 48 / 2 ^ 32 % 256 ∧
     (Ulid.new t rng).bytes.getD 2 0 = t % 2 ^ 48 / 2 ^ 24 % 256 ∧
     (Ulid.new t rng).bytes.getD 3 0 = t % 2 ^ 48 / 2 ^ 16 % 256 ∧
     (Ulid.new t rng).bytes.getD 4 0 = t % 2 ^ 48 / 2 ^ 8 % 256 ∧
     (Ulid.new t rng).bytes.getD 5 0 = t % 2 ^ 48 % 256) ∧
    ∀ k, k < 10 → (Ulid.new t rng).bytes.getD (6 + k) 0 = rng k := by
  rw [new_bytes t rng]
  constructor
  · refine ⟨?_, ?_, ?_, ?_, ?_, ?_⟩ <;>
      (simp only [List.getD_cons_succ, List.getD_cons_zero,
        Nat.shiftRight_eq_div_pow]; omega)
  · intro k hk
    interval_cases k <;> (simp; exact hrng _)

/-- Witness for C7: the fourth entropy call lands in byte 9. -/
theorem C7_constructor_bytes_witness :
    (Ulid.new 1484581420 (fun _ => 4)).bytes.getD (6 + 3) 0 = 4 ∧
    (Ulid.new 1484581420 (fun _ => 4)).bytes.getD 5 0 =
      1484581420 % 2 ^ 48 % 256 :=
  ⟨(C7_constructor_bytes 1484581420 (fun _ => 4)
      (fun _ => by show (4 : Nat) < 256; omega)).2 3 (by omega),
   (C7_constructor_bytes 1484581420 (fun _ => 4)
      (fun _ => by show (4 : Nat) < 256; omega)).1.2.2.2.2.2⟩

/-- Claim C8: decoding never rejects first-symbol overflow; the result equals
decoding the string whose first character is replaced by the character that
encodes the first word modulo 8. -/
theorem C8_overflow_masking (s : List Nat) (hlen : s.length = 26)
    (hall : ∀ i, i < 26 → DECODING.getD (s.getD i 0) 0xFF ≠ 0xFF) :
    (∃ u, Ulid.unmarshal s = Except.ok u) ∧
    Ulid.unmarshal s = Ulid.unmarshal (s.set 0 (ENCODING.getD (DECODING.getD (s.getD 0 0) 0xFF % 8) 0)) := by
  have hd0 := dec_lt_32 _ (hall 0 (by omega))
  have hs2 : (s.set 0 (ENCODING.getD (DECODING.getD (s.getD 0 0) 0xFF % 8) 0)).length = 26 := by
    simp [List.length_set, hlen]
  have e0 : (s.set 0 (ENCODING.getD (DECODING.getD (s.getD 0 0) 0xFF % 8) 0)).getD 0 0 = ENCODING.getD (DECODING.getD (s.getD 0 0) 0xFF % 8) 0 := by
    rw [List.getD_eq_getElem?_getD, List.getElem?_set_self (by omega)]
    rfl
  have e1 : (s.set 0 (ENCODING.getD (DECODING.getD (s.getD 0 0) 0xFF % 8) 0)).getD 1 0 = s.getD 1 0 :=
    getD_set_ne _ 0 1 _ _ (by omega)
  have e2 : (s.set 0 (ENCODING.getD (DECODING.getD (s.getD 0 0) 0xFF % 8) 0)).getD 2 0 = s.getD 2 0 :=
    getD_set_ne _ 0 2 _ _ (by omega)
  have e3 : (s.set 0 (ENCODING.getD (DECODING.getD (s.getD 0 0) 0xFF % 8) 0)).getD 3 0 = s.getD 3 0 :=
    getD_set_ne _ 0 3 _ _ (by omega)
  have e4 : (s.set 0 (ENCODING.getD (DECODING.getD (s.getD 0 0) 0xFF % 8) 0)).getD 4 0 = s.getD 4 0 :=
    getD_set_ne _ 0 4 _ _ (by omega)
  have e5 : (s.set 0 (ENCODING.getD (DECODING.getD (s.getD 0 0) 0xFF % 8) 0)).getD 5 0 = s.getD 5 0 :=
    getD_set_ne _ 0 5 _ _ (by omega)
  have e6 : (s.set 0 (ENCODING.getD (DECODING.getD (s.getD 0 0) 0xFF % 8) 0)).getD 6 0 = s.getD 6 0 :=
    getD_set_ne _ 0 6 _ _ (by omega)
  have e7 : (s.set 0 (ENCODING.getD (DECODING.getD (s.getD 0 0) 0xFF % 8) 0)).getD 7 0 = s.getD 7 0 :=
    getD_set_ne _ 0 7 _ _ (by omega)
  have e8 : (s.set 0 (ENCODING.getD (DECODING.getD (s.getD 0 0) 0xFF % 8) 0)).getD 8 0 = s.getD 8 0 :=
    getD_set_ne _ 0 8 _ _ (by omega)
  have e9 : (s.set 0 (ENCODING.getD (DECODING.getD (s.getD 0 0) 0xFF % 8) 0)).getD 9 0 = s.getD 9 0 :=
    getD_set_ne _ 0 9 _ _ (by omega)
  have e10 : (s.set 0 (ENCODING.getD (DECODING.getD (s.getD 0 0) 0xFF % 8) 0)).getD 10 0 = s.getD 10 0 :=
    getD_set_ne _ 0 10 _ _ (by omega)
  have e11 : (s.set 0 (ENCODING.getD (DECODING.getD (s.getD 0 0) 0xFF % 8) 0)).getD 11 0 = s.getD 11 0 :=
    getD_set_ne _ 0 11 _ _ (by omega)
  have e12 : (s.set 0 (ENCODING.getD (DECODING.getD (s.getD 0 0) 0xFF % 8) 0)).getD 12 0 = s.getD 12 0 :=
    getD_set_ne _ 0 12 _ _ (by omega)
  have e13 : (s.set 0 (ENCODING.getD (DECODING.getD (s.getD 0 0) 0xFF % 8) 0)).getD 13 0 = s.getD 13 0 :=
    getD_set_ne _ 0 13 _ _ (by omega)
  have e14 : (s.set 0 (ENCODING.getD (DECODING.getD (s.getD 0 0) 0xFF % 8) 0)).getD 14 0 = s.getD 14 0 :=
    getD_set_ne _ 0 14 _ _ (by omega)
  have e15 : (s.set 0 (ENCODING.getD (DECODING.getD (s.getD 0 0) 0xFF % 8) 0)).getD 15 0 = s.getD 15 0 :=
    getD_set_ne _ 0 15 _ _ (by omega)
  have e16 : (s.set 0 (ENCODING.getD (DECODING.getD (s.getD 0 0) 0xFF % 8) 0)).getD 16 0 = s.getD 16 0 :=
    getD_set_ne _ 0 16 _ _ (by omega)
  have e17 : (s.set 0 (ENCODING.getD (DECODING.getD (s.getD 0 0) 0xFF % 8) 0)).getD 17 0 = s.getD 17 0 :=
    getD_set_ne _ 0 17 _ _ (by omega)
  have e18 : (s.set 0 (ENCODING.getD (DECODING.getD (s.getD 0 0) 0xFF % 8) 0)).getD 18 0 = s.getD 18 0 :=
    getD_set_ne _ 0 18 _ _ (by omega)
  have e19 : (s.set 0 (ENCODING.getD (DECODING.getD (s.getD 0 0) 0xFF % 8) 0)).getD 19 0 = s.getD 19 0 :=
    getD_set_ne _ 0 19 _ _ (by omega)
  have e20 : (s.set 0 (ENCODING.getD (DECODING.getD (s.getD 0 0) 0xFF % 8) 0)).getD 20 0 = s.getD 20 0 :=
    getD_set_ne _ 0 20 _ _ (by omega)
  have e21 : (s.set 0 (ENCODING.getD (DECODING.getD (s.getD 0 0) 0xFF % 8) 0)).getD 21 0 = s.getD 21 0 :=
    getD_set_ne _ 0 21 _ _ (by omega)
  have e22 : (s.set 0 (ENCODING.getD (DECODING.getD (s.getD 0 0) 0xFF % 8) 0)).getD 22 0 = s.getD 22 0 :=
    getD_set_ne _ 0 22 _ _ (by omega)
  have e23 : (s.set 0 (ENCODING.getD (DECODING.getD (s.getD 0 0) 0xFF % 8) 0)).getD 23 0 = s.getD 23 0 :=
    getD_set_ne _ 0 23 _ _ (by omega)
  have e24 : (s.set 0 (ENCODING.getD (DECODING.getD (s.getD 0 0) 0xFF % 8) 0)).getD 24 0 = s.getD 24 0 :=
    getD_set_ne _ 0 24 _ _ (by omega)
  have e25 : (s.set 0 (ENCODING.getD (DECODING.getD (s.getD 0 0) 0xFF % 8) 0)).getD 25 0 = s.getD 25 0 :=
    getD_set_ne _ 0 25 _ _ (by omega)
  have hall2 : ∀ i, i < 26 →
      DECODING.getD ((s.set 0 (ENCODING.getD (DECODING.getD (s.getD 0 0) 0xFF % 8) 0)).getD i 0) 0xFF ≠ 0xFF := by
    intro i hi
    rcases Nat.eq_zero_or_pos i with rfl | hpos
    · rw [e0, enc_dec _ (by omega)]
      omega
    · interval_cases i <;> simp only [e1, e2, e3, e4, e5, e6, e7, e8, e9, e10, e11, e12, e13, e14, e15, e16, e17, e18, e19, e20, e21, e22, e23, e24, e25] <;>
        exact hall _ (by omega)
  refine ⟨⟨_, unmarshal_eq_ok s hlen hall⟩, ?_⟩
  rw [unmarshal_eq_ok s hlen hall, unmarshal_eq_ok _ hs2 hall2]
  rw [e0, e1, e2, e3, e4, e5, e6, e7, e8, e9, e10, e11, e12, e13, e14, e15, e16, e17, e18, e19, e20, e21, e22, e23, e24, e25]
  rw [enc_dec (DECODING.getD (s.getD 0 0) 0xFF % 8) (by omega)]
  simp only [Except.ok.injEq, Ulid.mk.injEq, List.cons.injEq, and_true]
  omega

/-- Witness for C8 at a string whose first symbol decodes to 31. -/
theorem C8_overflow_masking_witness :
    (∃ u, Ulid.unmarshal (strBytes "Z001C7STHC0G2081040G208104") =
      Except.ok u) ∧
    Ulid.unmarshal (strBytes "Z001C7STHC0G2081040G208104") =
      Ulid.unmarshal ((strBytes "Z001C7STHC0G2081040G208104").set 0
        (ENCODING.getD (DECODING.getD
          ((strBytes "Z001C7STHC0G2081040G208104").getD 0 0) 0xFF % 8) 0)) :=
  C8_overflow_masking _ (by decide) (by decide)

/-- Claim C9: the two concrete construction vectors of the spec. -/
theorem C9_concrete_vectors :
    (Ulid.new 1484581420 (fun _ => 4)).marshal =
      strBytes "0001C7STHC0G2081040G208104" ∧
    (Ulid.new 1469918176385 (fun _ => 0)).marshal =
      strBytes "01ARYZ6S410000000000000000" := by
  constructor <;> decide

/-- Claim C10: `encode_time` writes only bytes 0..5 and leaves bytes 6..15
unchanged; `encode_entropy` writes only bytes 6..15 and leaves bytes 0..5
unchanged. -/
theorem C10_frame (u : Ulid) (t : Nat) (rng : Nat → Nat) :
    (∀ j, 6 ≤ j → (u.encode_time t).bytes.getD j 0 = u.bytes.getD j 0) ∧
    (∀ j, j < 6 → (u.encode_entropy rng).bytes.getD j 0 = u.bytes.getD j 0) ∧
    (∀ j, 15 < j → (u.encode_entropy rng).bytes.getD j 0 = u.bytes.getD j 0) := by
  refine ⟨?_, ?_, ?_⟩
  · intro j hj
    simp only [Ulid.encode_time]
    rw [getD_set_ne _ 5 j _ _ (by omega), getD_set_ne _ 4 j _ _ (by omega),
      getD_set_ne _ 3 j _ _ (by omega), getD_set_ne _ 2 j _ _ (by omega),
      getD_set_ne _ 1 j _ _ (by omega), getD_set_ne _ 0 j _ _ (by omega)]
  · intro j hj
    simp only [Ulid.encode_entropy]
    rw [getD_set_ne _ 15 j _ _ (by omega), getD_set_ne _ 14 j _ _ (by omega),
      getD_set_ne _ 13 j _ _ (by omega), getD_set_ne _ 12 j _ _ (by omega),
      getD_set_ne _ 11 j _ _ (by omega), getD_set_ne _ 10 j _ _ (by omega),
      getD_set_ne _ 9 j _ _ (by omega), getD_set_ne _ 8 j _ _ (by omega),
      getD_set_ne _ 7 j _ _ (by omega), getD_set_ne _ 6 j _ _ (by omega)]
  · intro j hj
    simp only [Ulid.encode_entropy]
    rw [getD_set_ne _ 15 j _ _ (by omega), getD_set_ne _ 14 j _ _ (by omega),
      getD_set_ne _ 13 j _ _ (by omega), getD_set_ne _ 12 j _ _ (by omega),
      getD_set_ne _ 11 j _ _ (by omega), getD_set_ne _ 10 j _ _ (by omega),
      getD_set_ne _ 9 j _ _ (by omega), getD_set_ne _ 8 j _ _ (by omega),
      getD_set_ne _ 7 j _ _ (by omega), getD_set_ne _ 6 j _ _ (by omega)]

/-- Witness for C10 at a concrete state. -/
theorem C10_frame_witness :
    ((⟨List.replicate 16 3⟩ : Ulid).encode_time 123456789).bytes.getD 7 0 =
      (⟨List.replicate 16 3⟩ : Ulid).bytes.getD 7 0 ∧
    ((⟨List.replicate 16 3⟩ : Ulid).encode_entropy (fun _ => 9)).bytes.getD 3 0 =
      (⟨List.replicate 16 3⟩ : Ulid).bytes.getD 3 0 ∧
    ((⟨List.replicate 16 3⟩ : Ulid).encode_entropy (fun _ => 9)).bytes.getD 20 0 =
      (⟨List.replicate 16 3⟩ : Ulid).bytes.getD 20 0 :=
  ⟨(C10_frame _ 123456789 (fun _ => 9)).1 7 (by omega),
   (C10_frame _ 123456789 (fun _ => 9)).2.1 3 (by omega),
   (C10_frame _ 123456789 (fun _ => 9)).2.2 20 (by omega)⟩

end UlidRs
